import Mathlib

/-
Verification development for the pump predictive-maintenance engine.

The definitions below are a shallow embedding of the decision core of the
repository:
  - app/rules.py        (RuleContext, the thirteen rules, the RULES pipeline)
  - app/predictor.py    (healthy-nominal recovery reset, asymmetric risk
                         smoothing, display-probability mapping, the per-step
                         driver that builds a RuleContext and runs the rules)
  - app/telemetry_validator.py (record/batch range validation)
  - app/data_processor.py      (prepare_batch gating on validation status)
  - config/config.py    (threshold constants)

Python floats are modelled as rationals; every threshold in config.py is a
decimal literal, so the comparisons are exact.  Config attributes are all
present and numeric, hence config_float(Config, NAME, default) always returns
the Config value; the constants below carry the Config values.

Reason strings are modelled by the inductive type Reason: the rules only ever
compare reasons for equality with fixed Config messages, test the substring
"HIGH TEMPERATURE", or test a stripped prefix ("CHOKED DISCHARGE",
"MAINTENANCE (Zone C)").  Each constructor stands for exactly one Config
message (format arguments are carried as payloads); the membership /
substring / prefix tests are reproduced as predicates on the inductive and
each is annotated with the Config strings that satisfy it.
-/

namespace PumpSpec

/-- Status values the predictor feeds into and reads out of the rule
pipeline ("HEALTHY" / "WARNING" / "CRITICAL" in the Python source). -/
inductive Status where
  | HEALTHY
  | WARNING
  | CRITICAL
deriving DecidableEq, Repr

/-- Trip cause codes (class TripCause in rules.py). -/
inductive TripCause where
  | DEBRIS_IMPACT
  | CAVITATION
  | CHOKED_DISCHARGE
  | OVERTEMP
  | VIB_INTERLOCK
deriving DecidableEq, Repr

/-- Alarm cause codes (class AlarmCause in rules.py): the five trip causes
plus the alarm-only codes. -/
inductive AlarmCause where
  | DEBRIS_IMPACT
  | CAVITATION
  | CHOKED_DISCHARGE
  | OVERTEMP
  | VIB_INTERLOCK
  | VIB_ZONE_D
  | VIB_ZONE_C
  | OVERTEMP_WARNING
deriving DecidableEq, Repr

/-- Reason messages set by the rules.  Each constructor corresponds to one
Config message string; format placeholders are carried as rational payloads.

  mechanical    = MECHANICAL_DAMAGE_ALERT_MESSAGE (returned by
                  _mechanical_message(), since that attribute is present and
                  non-empty)
  cavitation    = CAVITATION_ALERT_MESSAGE
  choked p t i  = CHOKED_ALERT_MESSAGE.format(pressure, temp, current)
  degradation p i = DEGRADATION_ALERT_MESSAGE.format(pressure, current)
  tempZoneD t   = TEMP_ALERT_MESSAGE.format(temp)
  tempZoneC t   = TEMP_WARNING_ALERT_MESSAGE.format(temp)
  overload      = OVERLOAD_ALERT_MESSAGE
  highPressure  = PRESSURE_HIGH_ALERT_MESSAGE
  airIngestion  = AIR_INGESTION_ALERT_MESSAGE
  vibZoneD      = VIBRATION_ZONE_D_ALERT_MESSAGE
  vibZoneC      = VIBRATION_ZONE_C_ALERT_MESSAGE
  vibInterlock  = VIBRATION_INTERLOCK_ALERT_MESSAGE
  elevatedRisk  = ELEVATED_RISK_ALERT_MESSAGE
  highRiskModel = HIGH_RISK_CRITICAL_ALERT_MESSAGE
-/
inductive Reason where
  | mechanical
  | cavitation
  | choked (pressure temp current : ℚ)
  | degradation (pressure current : ℚ)
  | tempZoneD (temp : ℚ)
  | tempZoneC (temp : ℚ)
  | overload
  | highPressure
  | airIngestion
  | vibZoneD
  | vibZoneC
  | vibInterlock
  | elevatedRisk
  | highRiskModel
deriving DecidableEq, Repr

/-- The Python test `"HIGH TEMPERATURE" in reason`.  Among the Config
messages, exactly TEMP_ALERT_MESSAGE (" HIGH TEMPERATURE (Zone D): ...") and
TEMP_WARNING_ALERT_MESSAGE (" HIGH TEMPERATURE (Zone C): ...") contain the
substring "HIGH TEMPERATURE"; the format argument cannot introduce it. -/
def Reason.hasHighTemperature : Reason → Bool
  | .tempZoneD _ => true
  | .tempZoneC _ => true
  | _ => false

/-- The Python test `reason.strip().startswith("CHOKED DISCHARGE")`.  Only
CHOKED_ALERT_MESSAGE (" CHOKED DISCHARGE: P=...") strips to a string starting
with "CHOKED DISCHARGE". -/
def Reason.isChokedMessage : Reason → Bool
  | .choked _ _ _ => true
  | _ => false

/-- The Python test `reason.strip().startswith("MAINTENANCE (Zone C)")` in
FinalCleanupRule.  Only DEGRADATION_ALERT_MESSAGE (" MAINTENANCE (Zone C):
P=...") strips to a string starting with "MAINTENANCE (Zone C)". -/
def Reason.isMaintenanceMessage : Reason → Bool
  | .degradation _ _ => true
  | _ => false

/- Threshold constants from config/config.py (all present and numeric, so
config_float returns exactly these values). -/

def DEBRIS_IMPACT_CREST_MIN : ℚ := 6
def VIBRATION_CRITICAL_MMPS : ℚ := 71/10
def CAVITATION_CURRENT_MIN_AMP : ℚ := 54
def CAVITATION_PRESSURE_MAX_BAR : ℚ := 4
def CAVITATION_HYSTERESIS_EXIT_PRESSURE_BAR : ℚ := 45/10
def CAVITATION_VIBRATION_MIN_MMPS : ℚ := 9
def CHOKED_CURRENT_MAX_AMP : ℚ := 38
def CHOKED_PRESSURE_MIN_BAR : ℚ := 7
def CHOKED_TEMP_MIN_C : ℚ := 70
def DEGRADATION_CURRENT_MAX_AMP : ℚ := 40
def DEGRADATION_PRESSURE_MAX_BAR : ℚ := 52/10
def DEGRADATION_HYSTERESIS_CURRENT_AMP : ℚ := 2
def DEGRADATION_HYSTERESIS_PRESSURE_BAR : ℚ := 3/10
def TEMP_CRITICAL_C : ℚ := 75
def TEMP_WARNING_C : ℚ := 60
def OVERLOAD_CURRENT_MIN_AMP : ℚ := 50
def PRESSURE_HIGH_WARNING_BAR : ℚ := 7
def AIR_INGESTION_VIB_CREST_MIN : ℚ := 55/10
def AIR_INGESTION_VIB_RMS_MIN_MMPS : ℚ := 45/10
def VIBRATION_WARNING_ENTRY_MMPS : ℚ := 55/10
def PROB_MIN_FOR_VIBRATION_WARNING : ℚ := 15/100
def VIBRATION_WARNING_MMPS : ℚ := 45/10
def VIBRATION_HYSTERESIS_EXIT_WARNING_MMPS : ℚ := 45/10
def VIBRATION_HYSTERESIS_EXIT_CRITICAL_MMPS : ℚ := 6
def CRITICAL_EXIT_MIN_LOW_VIB_STEPS : ℤ := 5
def VIBRATION_INTERLOCK_MMPS : ℚ := 9
def PROB_HYSTERESIS_EXIT_WARNING : ℚ := 25/100
def PROB_CRITICAL : ℚ := 85/100
def PROB_CRITICAL_STARTUP : ℚ := 90/100
def PROB_WARNING : ℚ := 60/100
def SMOOTH_HIGH_RISK_THRESHOLD : ℚ := 70/100
def SMOOTH_ALPHA_VERY_HIGH : ℚ := 92/100
def SMOOTH_ALPHA_RISING : ℚ := 7/10
def SMOOTH_ALPHA_FALLING : ℚ := 65/100

/-- RuleContext from rules.py: immutable inputs (smoothed batch means, latest
sample values, smoothed probability, previous reason, previous status, debris
flag) and mutable outputs (status, reason, display probability, hysteresis
counter, trip cause, alarm causes). -/
structure RuleContext where
  vib_rms : ℚ
  vib_crest : ℚ
  current : ℚ
  pressure : ℚ
  temp : ℚ
  latest_vib : ℚ
  latest_crest : ℚ
  latest_current : ℚ
  latest_pressure : ℚ
  latest_temp : ℚ
  smoothed_prob : ℚ
  prev_reason : Option Reason
  last_status : Option Status
  debris_flag : Bool
  status : Status := .HEALTHY
  reason : Option Reason := none
  display_prob : ℚ := 0
  critical_low_vib_steps : ℤ := 0
  trip_cause : Option TripCause := none
  alarm_causes : List AlarmCause := []
deriving DecidableEq, Repr

/-- The Python idiom `if cause not in ctx.alarm_causes:
ctx.alarm_causes.append(cause)` used by every rule that records an alarm. -/
def appendIfAbsent (l : List AlarmCause) (a : AlarmCause) : List AlarmCause :=
  if a ∈ l then l else l ++ [a]

/-- Body shared by both firing branches of MechanicalRule.evaluate (the
`if ctx.debris_flag` branch and the crest/hysteresis `elif` branch execute
the identical statements). -/
def mechanicalFire (ctx : RuleContext) : RuleContext :=
  { ctx with
    status := .CRITICAL
    display_prob := max ctx.display_prob (95/100)
    reason := some .mechanical
    trip_cause := some (ctx.trip_cause.getD .DEBRIS_IMPACT)
    alarm_causes := appendIfAbsent ctx.alarm_causes .DEBRIS_IMPACT }

/-- MechanicalRule.evaluate (rules.py): debris impact / mechanical damage. -/
def mechanicalRule (ctx : RuleContext) : RuleContext :=
  let high_crest := ctx.latest_crest ≥ DEBRIS_IMPACT_CREST_MIN ∨
    ctx.vib_crest ≥ DEBRIS_IMPACT_CREST_MIN
  let zone_d := ctx.vib_rms ≥ VIBRATION_CRITICAL_MMPS ∨
    ctx.latest_vib ≥ VIBRATION_CRITICAL_MMPS
  let mechanical_hysteresis := ctx.prev_reason = some Reason.mechanical ∧ zone_d
  if ctx.debris_flag then mechanicalFire ctx
  else if (high_crest ∧ (ctx.status = .CRITICAL ∨ zone_d)) ∨ mechanical_hysteresis
    then mechanicalFire ctx
  else ctx

/-- The `smoothed` cavitation condition of CavitationRule.evaluate:
smoothed current/pressure/vibration inside the cavitation envelope. -/
def cavitationSmoothedCond (ctx : RuleContext) : Prop :=
  ctx.current ≥ CAVITATION_CURRENT_MIN_AMP ∧
  ctx.pressure ≤ CAVITATION_PRESSURE_MAX_BAR ∧
  ctx.vib_rms ≥ CAVITATION_VIBRATION_MIN_MMPS

/-- The `latest` cavitation condition of CavitationRule.evaluate: the latest
sample inside the cavitation envelope. -/
def cavitationLatestCond (ctx : RuleContext) : Prop :=
  ctx.latest_current ≥ CAVITATION_CURRENT_MIN_AMP ∧
  ctx.latest_pressure ≤ CAVITATION_PRESSURE_MAX_BAR ∧
  ctx.latest_vib ≥ CAVITATION_VIBRATION_MIN_MMPS

/-- The `hysteresis` cavitation condition of CavitationRule.evaluate. -/
def cavitationHysteresisCond (ctx : RuleContext) : Prop :=
  ctx.prev_reason = some Reason.cavitation ∧
  ctx.pressure ≤ CAVITATION_HYSTERESIS_EXIT_PRESSURE_BAR ∧
  ctx.latest_pressure ≤ CAVITATION_HYSTERESIS_EXIT_PRESSURE_BAR ∧
  (ctx.vib_rms ≥ CAVITATION_VIBRATION_MIN_MMPS ∨
    ctx.latest_vib ≥ CAVITATION_VIBRATION_MIN_MMPS) ∧
  (ctx.current ≥ CAVITATION_CURRENT_MIN_AMP ∨
    ctx.latest_current ≥ CAVITATION_CURRENT_MIN_AMP)

instance (ctx : RuleContext) : Decidable (cavitationSmoothedCond ctx) := by
  unfold cavitationSmoothedCond; infer_instance

instance (ctx : RuleContext) : Decidable (cavitationLatestCond ctx) := by
  unfold cavitationLatestCond; infer_instance

instance (ctx : RuleContext) : Decidable (cavitationHysteresisCond ctx) := by
  unfold cavitationHysteresisCond; infer_instance

/-- CavitationRule.evaluate (rules.py): high current, low pressure, high
vibration on smoothed or latest values, or pressure-band hysteresis. -/
def cavitationRule (ctx : RuleContext) : RuleContext :=
  if ctx.reason ≠ none then ctx
  else
    if cavitationSmoothedCond ctx ∨ cavitationLatestCond ctx ∨
        cavitationHysteresisCond ctx then
      { ctx with
        status := .CRITICAL
        display_prob := max ctx.display_prob (95/100)
        reason := some .cavitation
        trip_cause := some (ctx.trip_cause.getD .CAVITATION)
        alarm_causes := appendIfAbsent ctx.alarm_causes .CAVITATION }
    else ctx

/-- ChokedRule.evaluate (rules.py): low current, high pressure, high
temperature on smoothed or latest values.  CHOKED_ALERT_MESSAGE contains
format placeholders, so the reason is formatted with the latest values. -/
def chokedRule (ctx : RuleContext) : RuleContext :=
  if ctx.reason ≠ none then ctx
  else
    let smoothed := ctx.current ≤ CHOKED_CURRENT_MAX_AMP ∧
      ctx.pressure ≥ CHOKED_PRESSURE_MIN_BAR ∧
      ctx.temp ≥ CHOKED_TEMP_MIN_C
    let latest := ctx.latest_current ≤ CHOKED_CURRENT_MAX_AMP ∧
      ctx.latest_pressure ≥ CHOKED_PRESSURE_MIN_BAR ∧
      ctx.latest_temp ≥ CHOKED_TEMP_MIN_C
    if smoothed ∨ latest then
      { ctx with
        status := .CRITICAL
        display_prob := max ctx.display_prob (95/100)
        reason := some (.choked ctx.latest_pressure ctx.latest_temp ctx.latest_current)
        trip_cause := some (ctx.trip_cause.getD .CHOKED_DISCHARGE)
        alarm_causes := appendIfAbsent ctx.alarm_causes .CHOKED_DISCHARGE }
    else ctx

/-- DegradationRule.evaluate (rules.py): low current and low pressure on
smoothed AND latest values.  DEGRADATION_ALERT_MESSAGE contains placeholders,
formatted with latest values.  No trip cause. -/
def degradationRule (ctx : RuleContext) : RuleContext :=
  if ctx.reason ≠ none ∨ ctx.status = .CRITICAL then ctx
  else
    let smoothed := ctx.current ≤ DEGRADATION_CURRENT_MAX_AMP ∧
      ctx.pressure ≤ DEGRADATION_PRESSURE_MAX_BAR
    let latest := ctx.latest_current ≤ DEGRADATION_CURRENT_MAX_AMP ∧
      ctx.latest_pressure ≤ DEGRADATION_PRESSURE_MAX_BAR
    if smoothed ∧ latest then
      { ctx with
        status := .WARNING
        display_prob := max ctx.display_prob (55/100)
        reason := some (.degradation ctx.latest_pressure ctx.latest_current) }
    else ctx

/-- DegradationHysteresisRule.evaluate (rules.py): after WARNING, stay
WARNING until current and pressure are above the exit zone. -/
def degradationHysteresisRule (ctx : RuleContext) : RuleContext :=
  if ctx.last_status ≠ some .WARNING ∨ ctx.status ≠ .HEALTHY then ctx
  else
    let exit_current := DEGRADATION_CURRENT_MAX_AMP + DEGRADATION_HYSTERESIS_CURRENT_AMP
    let exit_pressure := DEGRADATION_PRESSURE_MAX_BAR + DEGRADATION_HYSTERESIS_PRESSURE_BAR
    if ctx.current ≤ exit_current ∨ ctx.pressure ≤ exit_pressure ∨
        ctx.latest_current ≤ exit_current ∨ ctx.latest_pressure ≤ exit_pressure then
      { ctx with
        status := .WARNING
        display_prob := max ctx.display_prob (55/100)
        reason := some (.degradation ctx.latest_pressure ctx.latest_current) }
    else ctx

/-- TemperatureRule.evaluate (rules.py): CRITICAL at TEMP_CRITICAL_C,
WARNING at TEMP_WARNING_C.  Both messages are formatted with latest_temp. -/
def temperatureRule (ctx : RuleContext) : RuleContext :=
  if ctx.reason ≠ none then ctx
  else if ctx.temp ≥ TEMP_CRITICAL_C ∨ ctx.latest_temp ≥ TEMP_CRITICAL_C then
    { ctx with
      status := .CRITICAL
      display_prob := max ctx.display_prob (85/100)
      reason := some (.tempZoneD ctx.latest_temp)
      trip_cause := some (ctx.trip_cause.getD .OVERTEMP)
      alarm_causes := appendIfAbsent ctx.alarm_causes .OVERTEMP }
  else if ctx.status ≠ .CRITICAL ∧
      (ctx.temp ≥ TEMP_WARNING_C ∨ ctx.latest_temp ≥ TEMP_WARNING_C) ∧
      ctx.status = .HEALTHY then
    { ctx with
      status := .WARNING
      display_prob := max ctx.display_prob (55/100)
      reason := some (.tempZoneC ctx.latest_temp)
      alarm_causes := appendIfAbsent ctx.alarm_causes .OVERTEMP_WARNING }
  else ctx

/-- OverloadRule.evaluate (rules.py): motor overload on high current. -/
def overloadRule (ctx : RuleContext) : RuleContext :=
  if ctx.reason ≠ none ∨ ctx.status ≠ .HEALTHY then ctx
  else if ctx.current ≥ OVERLOAD_CURRENT_MIN_AMP ∨
      ctx.latest_current ≥ OVERLOAD_CURRENT_MIN_AMP then
    { ctx with
      status := .WARNING
      display_prob := max ctx.display_prob (55/100)
      reason := some .overload }
  else ctx

/-- HighPressureRule.evaluate (rules.py): high discharge pressure with
current above the choked band. -/
def highPressureRule (ctx : RuleContext) : RuleContext :=
  if ctx.reason ≠ none ∨ ctx.status ≠ .HEALTHY then ctx
  else
    let not_choked := ctx.current > CHOKED_CURRENT_MAX_AMP ∧
      ctx.latest_current > CHOKED_CURRENT_MAX_AMP
    if (ctx.pressure ≥ PRESSURE_HIGH_WARNING_BAR ∨
        ctx.latest_pressure ≥ PRESSURE_HIGH_WARNING_BAR) ∧ not_choked then
      { ctx with
        status := .WARNING
        display_prob := max ctx.display_prob (55/100)
        reason := some .highPressure }
    else ctx

/-- AirIngestionRule.evaluate (rules.py): high crest factor with Zone C
vibration. -/
def airIngestionRule (ctx : RuleContext) : RuleContext :=
  if ctx.reason ≠ none ∨ ctx.status ≠ .HEALTHY then ctx
  else
    let air_ingestion :=
      (ctx.vib_crest ≥ AIR_INGESTION_VIB_CREST_MIN ∨
        ctx.latest_crest ≥ AIR_INGESTION_VIB_CREST_MIN) ∧
      (ctx.vib_rms ≥ AIR_INGESTION_VIB_RMS_MIN_MMPS ∨
        ctx.latest_vib ≥ AIR_INGESTION_VIB_RMS_MIN_MMPS)
    if air_ingestion then
      { ctx with
        status := .WARNING
        display_prob := max ctx.display_prob (55/100)
        reason := some .airIngestion }
    else ctx

/-- VibrationZoneRule.evaluate (rules.py): ISO 10816-3 Zone D -> CRITICAL,
Zone C with risk -> WARNING.  In the Zone D branch the Python membership test
`ctx.reason not in (mechanical_msg, CAVITATION_ALERT_MESSAGE)` is true when
the reason is None or any message other than those two. -/
def vibrationZoneRule (ctx : RuleContext) : RuleContext :=
  if ctx.vib_rms ≥ VIBRATION_CRITICAL_MMPS ∨
      ctx.latest_vib ≥ VIBRATION_CRITICAL_MMPS then
    let is_choked := ctx.reason.any Reason.isChokedMessage
    let is_temp := ctx.reason.any Reason.hasHighTemperature
    let keep := ctx.reason = some Reason.mechanical ∨
      ctx.reason = some Reason.cavitation ∨ is_choked = true ∨ is_temp = true
    { ctx with
      status := .CRITICAL
      display_prob := max ctx.display_prob (85/100)
      reason := if keep then ctx.reason else some .vibZoneD
      alarm_causes := appendIfAbsent ctx.alarm_causes .VIB_ZONE_D }
  else
    if ctx.vib_rms ≥ VIBRATION_WARNING_ENTRY_MMPS ∧
        ctx.latest_vib ≥ VIBRATION_WARNING_ENTRY_MMPS ∧
        ctx.smoothed_prob ≥ PROB_MIN_FOR_VIBRATION_WARNING ∧
        ctx.status = .HEALTHY then
      { ctx with
        status := .WARNING
        reason := some .vibZoneC
        alarm_causes := appendIfAbsent ctx.alarm_causes .VIB_ZONE_C }
    else ctx

/-- VibrationHysteresisRule.evaluate (rules.py): two sequential blocks, the
WARNING-exit hysteresis and then the CRITICAL-exit hysteresis with the
consecutive-low-vibration-step counter. -/
def vibrationHysteresisRule (ctx : RuleContext) : RuleContext :=
  let c1 :=
    if ctx.last_status = some Status.WARNING ∧ ctx.status = .HEALTHY ∧
        (ctx.vib_rms ≥ VIBRATION_HYSTERESIS_EXIT_WARNING_MMPS ∨
          ctx.latest_vib ≥ VIBRATION_HYSTERESIS_EXIT_WARNING_MMPS) then
      { ctx with
        status := .WARNING
        reason := if ctx.reason = none then some .vibZoneC else ctx.reason }
    else ctx
  if c1.last_status = some Status.CRITICAL ∧ c1.status = .WARNING then
    if c1.vib_rms ≥ VIBRATION_HYSTERESIS_EXIT_CRITICAL_MMPS ∨
        c1.latest_vib ≥ VIBRATION_HYSTERESIS_EXIT_CRITICAL_MMPS then
      { c1 with status := .CRITICAL, critical_low_vib_steps := 0 }
    else
      let steps := c1.critical_low_vib_steps + 1
      if steps < CRITICAL_EXIT_MIN_LOW_VIB_STEPS then
        { c1 with status := .CRITICAL, critical_low_vib_steps := steps }
      else
        { c1 with critical_low_vib_steps := 0 }
  else c1

/-- InterlockRule.evaluate (rules.py): smoothed vibration at or above the
interlock limit forces CRITICAL with display probability 0.999, keeping a
cavitation or temperature reason; below the limit but inside the CRITICAL
alarm band the display probability ramps from 0.85 toward 1.00. -/
def interlockRule (ctx : RuleContext) : RuleContext :=
  if ctx.vib_rms ≥ VIBRATION_INTERLOCK_MMPS then
    let keepReason := ctx.reason.any Reason.hasHighTemperature = true ∨
      ctx.reason = some Reason.cavitation
    { ctx with
      status := .CRITICAL
      display_prob := 999/1000
      reason := if keepReason then ctx.reason else some .vibInterlock
      trip_cause := if ctx.trip_cause = none then some .VIB_INTERLOCK else ctx.trip_cause
      alarm_causes := appendIfAbsent ctx.alarm_causes .VIB_INTERLOCK }
  else if (ctx.status = .CRITICAL ∨ ctx.status = .WARNING) ∧
      (VIBRATION_CRITICAL_MMPS ≤ ctx.vib_rms ∧
        ctx.vib_rms < VIBRATION_INTERLOCK_MMPS) ∧
      VIBRATION_INTERLOCK_MMPS > VIBRATION_CRITICAL_MMPS then
    let denom := VIBRATION_INTERLOCK_MMPS - VIBRATION_CRITICAL_MMPS
    let ramp := if denom > 0 then (ctx.vib_rms - VIBRATION_CRITICAL_MMPS) / denom else 0
    let d1 := max ctx.display_prob (85/100 + ramp * (15/100))
    { ctx with display_prob := min 1 d1 }
  else ctx

/-- FinalCleanupRule.evaluate (rules.py): enforce the CRITICAL display floor
and replace a stale Zone C maintenance reason, then the model-risk WARNING
hysteresis. -/
def finalCleanupRule (ctx : RuleContext) : RuleContext :=
  let c1 :=
    if ctx.status = .CRITICAL then
      { ctx with
        display_prob := max ctx.display_prob (85/100)
        reason := if ctx.reason.any Reason.isMaintenanceMessage
          then some .highRiskModel else ctx.reason }
    else ctx
  if c1.last_status = some Status.WARNING ∧ c1.status = .HEALTHY ∧
      c1.smoothed_prob ≥ PROB_HYSTERESIS_EXIT_WARNING then
    { c1 with
      status := .WARNING
      reason := if c1.reason = none then some .elevatedRisk else c1.reason }
  else c1

/-- The fixed rule order (RULES in rules.py). -/
def RULES : List (RuleContext → RuleContext) :=
  [mechanicalRule, cavitationRule, chokedRule, degradationRule,
   degradationHysteresisRule, temperatureRule, overloadRule, highPressureRule,
   airIngestionRule, vibrationZoneRule, vibrationHysteresisRule,
   interlockRule, finalCleanupRule]

/-- The evaluation loop `for rule in rules_module.RULES: rule.evaluate(ctx)`
from PumpPredictor.predict. -/
def runRules (rules : List (RuleContext → RuleContext)) (ctx : RuleContext) :
    RuleContext :=
  rules.foldl (fun c r => r c) ctx

/-- The full rule pipeline on one RuleContext. -/
def runPipeline (ctx : RuleContext) : RuleContext := runRules RULES ctx

/-- The pipeline written out as the composition of the thirteen rules in
their fixed order. -/
theorem runPipeline_eq (ctx : RuleContext) :
    runPipeline ctx =
      finalCleanupRule (interlockRule (vibrationHysteresisRule
        (vibrationZoneRule (airIngestionRule (highPressureRule (overloadRule
        (temperatureRule (degradationHysteresisRule (degradationRule
        (chokedRule (cavitationRule (mechanicalRule ctx)))))))))))) := rfl

theorem cavitationRule_skip (ctx : RuleContext) (h : ctx.reason ≠ none) :
    cavitationRule ctx = ctx := by
  simp only [cavitationRule, if_pos h]

theorem chokedRule_skip (ctx : RuleContext) (h : ctx.reason ≠ none) :
    chokedRule ctx = ctx := by
  simp only [chokedRule, if_pos h]

theorem degradationRule_skip (ctx : RuleContext)
    (h : ctx.reason ≠ none ∨ ctx.status = .CRITICAL) :
    degradationRule ctx = ctx := by
  simp only [degradationRule, if_pos h]

theorem degradationHysteresisRule_skip (ctx : RuleContext)
    (h : ctx.last_status ≠ some .WARNING ∨ ctx.status ≠ .HEALTHY) :
    degradationHysteresisRule ctx = ctx := by
  simp only [degradationHysteresisRule, if_pos h]

theorem temperatureRule_skip (ctx : RuleContext) (h : ctx.reason ≠ none) :
    temperatureRule ctx = ctx := by
  simp only [temperatureRule, if_pos h]

theorem overloadRule_skip (ctx : RuleContext)
    (h : ctx.reason ≠ none ∨ ctx.status ≠ .HEALTHY) :
    overloadRule ctx = ctx := by
  simp only [overloadRule, if_pos h]

theorem highPressureRule_skip (ctx : RuleContext)
    (h : ctx.reason ≠ none ∨ ctx.status ≠ .HEALTHY) :
    highPressureRule ctx = ctx := by
  simp only [highPressureRule, if_pos h]

theorem airIngestionRule_skip (ctx : RuleContext)
    (h : ctx.reason ≠ none ∨ ctx.status ≠ .HEALTHY) :
    airIngestionRule ctx = ctx := by
  simp only [airIngestionRule, if_pos h]

/-- Neither hysteresis block applies when the incoming status is CRITICAL. -/
theorem vibrationHysteresisRule_skip_critical (ctx : RuleContext)
    (h : ctx.status = .CRITICAL) : vibrationHysteresisRule ctx = ctx := by
  simp only [vibrationHysteresisRule, h]
  simp [h]

/-- Neither hysteresis block applies when there is no previous status. -/
theorem vibrationHysteresisRule_skip_none (ctx : RuleContext)
    (h : ctx.last_status = none) : vibrationHysteresisRule ctx = ctx := by
  simp only [vibrationHysteresisRule, h]
  simp [h]

/-- Zone D branch of VibrationZoneRule when the current reason is kept
(mechanical, cavitation, choked or high temperature). -/
theorem vibrationZoneRule_zoneD_keep (ctx : RuleContext)
    (hv : ctx.vib_rms ≥ VIBRATION_CRITICAL_MMPS ∨
      ctx.latest_vib ≥ VIBRATION_CRITICAL_MMPS)
    (hk : ctx.reason = some Reason.mechanical ∨
      ctx.reason = some Reason.cavitation ∨
      ctx.reason.any Reason.isChokedMessage = true ∨
      ctx.reason.any Reason.hasHighTemperature = true) :
    vibrationZoneRule ctx =
      { ctx with
        status := .CRITICAL
        display_prob := max ctx.display_prob (85/100)
        alarm_causes := appendIfAbsent ctx.alarm_causes .VIB_ZONE_D } := by
  simp only [vibrationZoneRule, if_pos hv, if_pos hk]

/-- InterlockRule when the smoothed vibration reaches the interlock limit. -/
theorem interlockRule_fire (ctx : RuleContext)
    (hv : ctx.vib_rms ≥ VIBRATION_INTERLOCK_MMPS) :
    interlockRule ctx =
      { ctx with
        status := .CRITICAL
        display_prob := 999/1000
        reason := if ctx.reason.any Reason.hasHighTemperature = true ∨
            ctx.reason = some Reason.cavitation
          then ctx.reason else some .vibInterlock
        trip_cause := if ctx.trip_cause = none then some .VIB_INTERLOCK
          else ctx.trip_cause
        alarm_causes := appendIfAbsent ctx.alarm_causes .VIB_INTERLOCK } := by
  simp only [interlockRule, if_pos hv]

/-- FinalCleanupRule never touches trip_cause or alarm_causes. -/
theorem finalCleanupRule_trip_alarms (ctx : RuleContext) :
    (finalCleanupRule ctx).trip_cause = ctx.trip_cause ∧
    (finalCleanupRule ctx).alarm_causes = ctx.alarm_causes := by
  simp only [finalCleanupRule]
  constructor <;> (repeat' split) <;> rfl

theorem mem_appendIfAbsent_self (l : List AlarmCause) (a : AlarmCause) :
    a ∈ appendIfAbsent l a := by
  simp only [appendIfAbsent]
  split
  · assumption
  · simp

theorem mem_appendIfAbsent_of_mem (l : List AlarmCause) (a b : AlarmCause)
    (h : a ∈ l) : a ∈ appendIfAbsent l b := by
  simp only [appendIfAbsent]
  split
  · exact h
  · simp [h]

/-- CavitationRule when the reason slot is free and one of its three firing
conditions holds. -/
theorem cavitationRule_fire (ctx : RuleContext) (hr : ctx.reason = none)
    (hc : cavitationSmoothedCond ctx ∨ cavitationLatestCond ctx ∨
      cavitationHysteresisCond ctx) :
    cavitationRule ctx =
      { ctx with
        status := .CRITICAL
        display_prob := max ctx.display_prob (95/100)
        reason := some .cavitation
        trip_cause := some (ctx.trip_cause.getD .CAVITATION)
        alarm_causes := appendIfAbsent ctx.alarm_causes .CAVITATION } := by
  rw [cavitationRule, if_neg (by simp [hr]), if_pos hc]

/-- After CavitationRule has fired (reason cavitation, status CRITICAL, trip
cause CAVITATION, smoothed vibration at the interlock limit), the remaining
eleven rules keep the trip cause, keep the CAVITATION alarm and add the
VIB_INTERLOCK alarm. -/
theorem pipelineTail_cavitation (d : RuleContext)
    (hr : d.reason = some Reason.cavitation) (hs : d.status = .CRITICAL)
    (ht : d.trip_cause = some .CAVITATION)
    (hv : d.vib_rms ≥ VIBRATION_INTERLOCK_MMPS)
    (ha : AlarmCause.CAVITATION ∈ d.alarm_causes) :
    (finalCleanupRule (interlockRule (vibrationHysteresisRule
      (vibrationZoneRule (airIngestionRule (highPressureRule (overloadRule
      (temperatureRule (degradationHysteresisRule (degradationRule
      (chokedRule d))))))))))).trip_cause = some TripCause.CAVITATION ∧
    AlarmCause.CAVITATION ∈ (finalCleanupRule (interlockRule
      (vibrationHysteresisRule (vibrationZoneRule (airIngestionRule
      (highPressureRule (overloadRule (temperatureRule
      (degradationHysteresisRule (degradationRule
      (chokedRule d))))))))))).alarm_causes ∧
    AlarmCause.VIB_INTERLOCK ∈ (finalCleanupRule (interlockRule
      (vibrationHysteresisRule (vibrationZoneRule (airIngestionRule
      (highPressureRule (overloadRule (temperatureRule
      (degradationHysteresisRule (degradationRule
      (chokedRule d))))))))))).alarm_causes := by
  rw [chokedRule_skip d (by simp [hr]),
    degradationRule_skip d (Or.inr hs),
    degradationHysteresisRule_skip d (Or.inr (by simp [hs])),
    temperatureRule_skip d (by simp [hr]),
    overloadRule_skip d (Or.inr (by simp [hs])),
    highPressureRule_skip d (Or.inr (by simp [hs])),
    airIngestionRule_skip d (Or.inr (by simp [hs]))]
  have hcrit : VIBRATION_CRITICAL_MMPS ≤ d.vib_rms :=
    le_trans (by norm_num [VIBRATION_CRITICAL_MMPS, VIBRATION_INTERLOCK_MMPS]) hv
  rw [vibrationZoneRule_zoneD_keep d (Or.inl hcrit) (Or.inr (Or.inl hr))]
  rw [vibrationHysteresisRule_skip_critical _ rfl]
  rw [interlockRule_fire
    { d with
      status := Status.CRITICAL
      display_prob := max d.display_prob (85/100)
      alarm_causes := appendIfAbsent d.alarm_causes AlarmCause.VIB_ZONE_D } hv]
  refine ⟨?_, ?_, ?_⟩
  · rw [(finalCleanupRule_trip_alarms _).1]
    simp [ht]
  · rw [(finalCleanupRule_trip_alarms _).2]
    exact mem_appendIfAbsent_of_mem _ _ _
      (mem_appendIfAbsent_of_mem _ _ _ ha)
  · rw [(finalCleanupRule_trip_alarms _).2]
    exact mem_appendIfAbsent_self _ _

/-- C1: on a rule-engine step (fresh outputs: no reason, no trip cause yet)
where the cavitation condition holds on smoothed or latest values, the
vibration-interlock condition (smoothed vibration at or above 9.0 mm/s)
holds, and the earlier debris/mechanical rule does not fire, the final trip
cause is CAVITATION (the interlock does not overwrite it) and the alarm
causes contain both CAVITATION and VIB_INTERLOCK. -/
theorem cavitation_wins_over_interlock (ctx : RuleContext)
    (hreason : ctx.reason = none) (htrip : ctx.trip_cause = none)
    (hcav : cavitationSmoothedCond ctx ∨ cavitationLatestCond ctx)
    (hvib : ctx.vib_rms ≥ VIBRATION_INTERLOCK_MMPS)
    (hmech : mechanicalRule ctx = ctx) :
    (runPipeline ctx).trip_cause = some TripCause.CAVITATION ∧
    AlarmCause.CAVITATION ∈ (runPipeline ctx).alarm_causes ∧
    AlarmCause.VIB_INTERLOCK ∈ (runPipeline ctx).alarm_causes := by
  rw [runPipeline_eq, hmech,
    cavitationRule_fire ctx hreason
      (Or.elim hcav (fun h => Or.inl h) (fun h => Or.inr (Or.inl h)))]
  exact pipelineTail_cavitation _ (by simp) rfl (by simp [htrip]) hvib
    (mem_appendIfAbsent_self _ _)

/-- The spec scenario for C1: current 55 A, pressure 3.5 bar, vibration
9.5 mm/s on both smoothed and latest values. -/
def cavitationScenarioCtx : RuleContext :=
  { vib_rms := 95/10, vib_crest := 3, current := 55, pressure := 35/10,
    temp := 42, latest_vib := 95/10, latest_crest := 3, latest_current := 55,
    latest_pressure := 35/10, latest_temp := 42, smoothed_prob := 7/10,
    prev_reason := none, last_status := none, debris_flag := false,
    status := .WARNING, reason := none, display_prob := 7/10,
    critical_low_vib_steps := 0, trip_cause := none, alarm_causes := [] }

/-- Witness for C1 at the spec scenario values. -/
theorem cavitation_wins_over_interlock_witness :
    (runPipeline cavitationScenarioCtx).trip_cause = some TripCause.CAVITATION ∧
    AlarmCause.CAVITATION ∈ (runPipeline cavitationScenarioCtx).alarm_causes ∧
    AlarmCause.VIB_INTERLOCK ∈ (runPipeline cavitationScenarioCtx).alarm_causes :=
  cavitation_wins_over_interlock cavitationScenarioCtx rfl rfl
    (Or.inl (by norm_num [cavitationSmoothedCond, cavitationScenarioCtx,
      CAVITATION_CURRENT_MIN_AMP, CAVITATION_PRESSURE_MAX_BAR,
      CAVITATION_VIBRATION_MIN_MMPS]))
    (by norm_num [cavitationScenarioCtx, VIBRATION_INTERLOCK_MMPS])
    (by
      rw [mechanicalRule, if_neg, if_neg]
      all_goals norm_num [cavitationScenarioCtx, DEBRIS_IMPACT_CREST_MIN,
        VIBRATION_CRITICAL_MMPS]
      all_goals simp)

theorem mechanicalRule_trip_mono (ctx : RuleContext) (c : TripCause)
    (h : ctx.trip_cause = some c) :
    (mechanicalRule ctx).trip_cause = some c := by
  simp only [mechanicalRule, mechanicalFire]
  repeat' split
  all_goals simp [h]

theorem cavitationRule_trip_mono (ctx : RuleContext) (c : TripCause)
    (h : ctx.trip_cause = some c) :
    (cavitationRule ctx).trip_cause = some c := by
  simp only [cavitationRule]
  repeat' split
  all_goals simp [h]

theorem chokedRule_trip_mono (ctx : RuleContext) (c : TripCause)
    (h : ctx.trip_cause = some c) :
    (chokedRule ctx).trip_cause = some c := by
  simp only [chokedRule]
  repeat' split
  all_goals simp [h]

theorem degradationRule_trip_mono (ctx : RuleContext) (c : TripCause)
    (h : ctx.trip_cause = some c) :
    (degradationRule ctx).trip_cause = some c := by
  simp only [degradationRule]
  repeat' split
  all_goals simp [h]

theorem degradationHysteresisRule_trip_mono (ctx : RuleContext) (c : TripCause)
    (h : ctx.trip_cause = some c) :
    (degradationHysteresisRule ctx).trip_cause = some c := by
  simp only [degradationHysteresisRule]
  repeat' split
  all_goals simp [h]

theorem temperatureRule_trip_mono (ctx : RuleContext) (c : TripCause)
    (h : ctx.trip_cause = some c) :
    (temperatureRule ctx).trip_cause = some c := by
  simp only [temperatureRule]
  repeat' split
  all_goals simp [h]

theorem overloadRule_trip_mono (ctx : RuleContext) (c : TripCause)
    (h : ctx.trip_cause = some c) :
    (overloadRule ctx).trip_cause = some c := by
  simp only [overloadRule]
  repeat' split
  all_goals simp [h]

theorem highPressureRule_trip_mono (ctx : RuleContext) (c : TripCause)
    (h : ctx.trip_cause = some c) :
    (highPressureRule ctx).trip_cause = some c := by
  simp only [highPressureRule]
  repeat' split
  all_goals simp [h]

theorem airIngestionRule_trip_mono (ctx : RuleContext) (c : TripCause)
    (h : ctx.trip_cause = some c) :
    (airIngestionRule ctx).trip_cause = some c := by
  simp only [airIngestionRule]
  repeat' split
  all_goals simp [h]

theorem vibrationZoneRule_trip_mono (ctx : RuleContext) (c : TripCause)
    (h : ctx.trip_cause = some c) :
    (vibrationZoneRule ctx).trip_cause = some c := by
  simp only [vibrationZoneRule]
  repeat' split
  all_goals simp [h]

theorem vibrationHysteresisRule_trip_mono (ctx : RuleContext) (c : TripCause)
    (h : ctx.trip_cause = some c) :
    (vibrationHysteresisRule ctx).trip_cause = some c := by
  simp only [vibrationHysteresisRule]
  repeat' split
  all_goals simp [h]

theorem interlockRule_trip_mono (ctx : RuleContext) (c : TripCause)
    (h : ctx.trip_cause = some c) :
    (interlockRule ctx).trip_cause = some c := by
  simp only [interlockRule]
  repeat' split
  all_goals simp_all

theorem finalCleanupRule_trip_mono (ctx : RuleContext) (c : TripCause)
    (h : ctx.trip_cause = some c) :
    (finalCleanupRule ctx).trip_cause = some c := by
  rw [(finalCleanupRule_trip_alarms ctx).1, h]

/-- Every rule of the fixed pipeline preserves an already-set trip cause. -/
theorem rules_trip_mono (f : RuleContext → RuleContext) (hf : f ∈ RULES)
    (ctx : RuleContext) (c : TripCause) (h : ctx.trip_cause = some c) :
    (f ctx).trip_cause = some c := by
  simp only [RULES, List.mem_cons, List.not_mem_nil, or_false] at hf
  rcases hf with rfl | rfl | rfl | rfl | rfl | rfl | rfl | rfl | rfl | rfl |
    rfl | rfl | rfl
  · exact mechanicalRule_trip_mono ctx c h
  · exact cavitationRule_trip_mono ctx c h
  · exact chokedRule_trip_mono ctx c h
  · exact degradationRule_trip_mono ctx c h
  · exact degradationHysteresisRule_trip_mono ctx c h
  · exact temperatureRule_trip_mono ctx c h
  · exact overloadRule_trip_mono ctx c h
  · exact highPressureRule_trip_mono ctx c h
  · exact airIngestionRule_trip_mono ctx c h
  · exact vibrationZoneRule_trip_mono ctx c h
  · exact vibrationHysteresisRule_trip_mono ctx c h
  · exact interlockRule_trip_mono ctx c h
  · exact finalCleanupRule_trip_mono ctx c h

/-- A rule list made of trip-preserving rules is trip-preserving. -/
theorem runRules_trip_mono (rs : List (RuleContext → RuleContext))
    (hrs : ∀ f ∈ rs, ∀ ctx : RuleContext, ∀ c : TripCause,
      ctx.trip_cause = some c → (f ctx).trip_cause = some c)
    (ctx : RuleContext) (c : TripCause) (h : ctx.trip_cause = some c) :
    (runRules rs ctx).trip_cause = some c := by
  induction rs generalizing ctx with
  | nil => exact h
  | cons f tl ih =>
    exact ih (fun g hg => hrs g (List.mem_cons_of_mem f hg)) (f ctx)
      (hrs f (List.mem_cons_self f tl) ctx c h)

/-- C2: first-writer-wins on the trip cause.  Once trip_cause holds a value,
every rule of the fixed pipeline leaves it unchanged, and hence the value
survives to the end of the pipeline. -/
theorem trip_cause_first_writer_wins (ctx : RuleContext) (c : TripCause)
    (h : ctx.trip_cause = some c) :
    (∀ f ∈ RULES, (f ctx).trip_cause = some c) ∧
    (runPipeline ctx).trip_cause = some c :=
  ⟨fun f hf => rules_trip_mono f hf ctx c h,
    runRules_trip_mono RULES (fun f hf ctx c h => rules_trip_mono f hf ctx c h)
      ctx c h⟩

/-- Witness context for C2: a context whose trip cause is already set. -/
def presetTripCtx : RuleContext :=
  { vib_rms := 2, vib_crest := 3, current := 45, pressure := 6, temp := 42,
    latest_vib := 2, latest_crest := 3, latest_current := 45,
    latest_pressure := 6, latest_temp := 42, smoothed_prob := 1/10,
    prev_reason := none, last_status := none, debris_flag := false,
    status := .CRITICAL, reason := some (.tempZoneD 80), display_prob := 85/100,
    critical_low_vib_steps := 0, trip_cause := some .OVERTEMP,
    alarm_causes := [.OVERTEMP] }

/-- Witness for C2 at a concrete context with trip cause OVERTEMP. -/
theorem trip_cause_first_writer_wins_witness :
    (∀ f ∈ RULES, (f presetTripCtx).trip_cause = some TripCause.OVERTEMP) ∧
    (runPipeline presetTripCtx).trip_cause = some TripCause.OVERTEMP :=
  trip_cause_first_writer_wins presetTripCtx TripCause.OVERTEMP rfl

/-- VibrationZoneRule does nothing when the vibration is below Zone D and
the Zone C entry condition fails. -/
theorem vibrationZoneRule_skip (ctx : RuleContext)
    (h1 : ¬(ctx.vib_rms ≥ VIBRATION_CRITICAL_MMPS ∨
      ctx.latest_vib ≥ VIBRATION_CRITICAL_MMPS))
    (h2 : ¬(ctx.vib_rms ≥ VIBRATION_WARNING_ENTRY_MMPS ∧
      ctx.latest_vib ≥ VIBRATION_WARNING_ENTRY_MMPS ∧
      ctx.smoothed_prob ≥ PROB_MIN_FOR_VIBRATION_WARNING ∧
      ctx.status = .HEALTHY)) :
    vibrationZoneRule ctx = ctx := by
  rw [vibrationZoneRule, if_neg h1, if_neg h2]

/-- InterlockRule does nothing when the smoothed vibration is below the
interlock limit and the alarm-band display ramp does not apply. -/
theorem interlockRule_skip (ctx : RuleContext)
    (h1 : ¬ctx.vib_rms ≥ VIBRATION_INTERLOCK_MMPS)
    (h2 : ¬((ctx.status = .CRITICAL ∨ ctx.status = .WARNING) ∧
      (VIBRATION_CRITICAL_MMPS ≤ ctx.vib_rms ∧
        ctx.vib_rms < VIBRATION_INTERLOCK_MMPS) ∧
      VIBRATION_INTERLOCK_MMPS > VIBRATION_CRITICAL_MMPS)) :
    interlockRule ctx = ctx := by
  rw [interlockRule, if_neg h1, if_neg h2]

/-- FinalCleanupRule keeps a CRITICAL status. -/
theorem finalCleanupRule_status_critical (ctx : RuleContext)
    (h : ctx.status = .CRITICAL) :
    (finalCleanupRule ctx).status = .CRITICAL := by
  simp only [finalCleanupRule, h]
  simp

/-- If FinalCleanupRule outputs CRITICAL, the displayed probability is at
least 0.85: the rule enforces the floor on every CRITICAL context, and its
WARNING hysteresis block can only produce WARNING. -/
theorem finalCleanupRule_critical_display (ctx : RuleContext)
    (h : (finalCleanupRule ctx).status = .CRITICAL) :
    (finalCleanupRule ctx).display_prob ≥ 85/100 := by
  by_cases hc : ctx.status = .CRITICAL
  · simp only [finalCleanupRule, if_pos hc] at h ⊢
    rw [if_neg (by simp [hc])] at h ⊢
    exact le_max_right ctx.display_prob (85/100)
  · simp only [finalCleanupRule, if_neg hc] at h
    by_cases h2 : ctx.last_status = some Status.WARNING ∧
        ctx.status = .HEALTHY ∧
        ctx.smoothed_prob ≥ PROB_HYSTERESIS_EXIT_WARNING
    · rw [if_pos h2] at h
      simp at h
    · rw [if_neg h2] at h
      exact absurd h hc

/-- C3: after the full pipeline, a CRITICAL status together with a set hard
trip cause implies a displayed probability of at least 0.85 (enforced by
FinalCleanupRule, the last rule). -/
theorem critical_trip_display_floor (ctx : RuleContext) (tc : TripCause)
    (hstat : (runPipeline ctx).status = .CRITICAL)
    (_htrip : (runPipeline ctx).trip_cause = some tc) :
    (runPipeline ctx).display_prob ≥ 85/100 := by
  rw [runPipeline_eq] at hstat ⊢
  exact finalCleanupRule_critical_display _ hstat

/-- Witness input for C3: a debris-impact step (debris flag set, all other
channels nominal). -/
def debrisCtx : RuleContext :=
  { vib_rms := 1, vib_crest := 3, current := 45, pressure := 6, temp := 42,
    latest_vib := 1, latest_crest := 3, latest_current := 45,
    latest_pressure := 6, latest_temp := 42, smoothed_prob := 1/10,
    prev_reason := none, last_status := none, debris_flag := true,
    status := .HEALTHY, reason := none, display_prob := 0,
    critical_low_vib_steps := 0, trip_cause := none, alarm_causes := [] }

/-- The context after MechanicalRule fires on the debris flag; rules 2-12
leave it unchanged. -/
def debrisCtxFired : RuleContext :=
  { debrisCtx with
    status := .CRITICAL
    display_prob := 95/100
    reason := some .mechanical
    trip_cause := some .DEBRIS_IMPACT
    alarm_causes := [.DEBRIS_IMPACT] }

theorem debrisCtx_pipeline :
    runPipeline debrisCtx = finalCleanupRule debrisCtxFired := by
  rw [runPipeline_eq]
  have s1 : mechanicalRule debrisCtx = debrisCtxFired := by
    rw [mechanicalRule, if_pos (by norm_num [debrisCtx]), mechanicalFire]
    norm_num [debrisCtx, debrisCtxFired, appendIfAbsent]
  rw [s1,
    cavitationRule_skip _ (by simp [debrisCtxFired, debrisCtx]),
    chokedRule_skip _ (by simp [debrisCtxFired, debrisCtx]),
    degradationRule_skip _ (Or.inr rfl),
    degradationHysteresisRule_skip _ (Or.inr (by simp [debrisCtxFired, debrisCtx])),
    temperatureRule_skip _ (by simp [debrisCtxFired, debrisCtx]),
    overloadRule_skip _ (Or.inr (by simp [debrisCtxFired, debrisCtx])),
    highPressureRule_skip _ (Or.inr (by simp [debrisCtxFired, debrisCtx])),
    airIngestionRule_skip _ (Or.inr (by simp [debrisCtxFired, debrisCtx])),
    vibrationZoneRule_skip _
      (by norm_num [debrisCtxFired, debrisCtx, VIBRATION_CRITICAL_MMPS])
      (by norm_num [debrisCtxFired, debrisCtx, VIBRATION_WARNING_ENTRY_MMPS]),
    vibrationHysteresisRule_skip_none _ (by simp [debrisCtxFired, debrisCtx]),
    interlockRule_skip _
      (by norm_num [debrisCtxFired, debrisCtx, VIBRATION_INTERLOCK_MMPS])
      (by norm_num [debrisCtxFired, debrisCtx, VIBRATION_CRITICAL_MMPS,
        VIBRATION_INTERLOCK_MMPS])]

/-- Witness for C3 at the debris-impact step. -/
theorem critical_trip_display_floor_witness :
    (runPipeline debrisCtx).status = .CRITICAL ∧
    (runPipeline debrisCtx).trip_cause = some TripCause.DEBRIS_IMPACT ∧
    (runPipeline debrisCtx).display_prob ≥ 85/100 := by
  have hstat : (runPipeline debrisCtx).status = .CRITICAL := by
    rw [debrisCtx_pipeline]
    exact finalCleanupRule_status_critical _ rfl
  have htrip : (runPipeline debrisCtx).trip_cause = some TripCause.DEBRIS_IMPACT := by
    rw [debrisCtx_pipeline, (finalCleanupRule_trip_alarms _).1]
    rfl
  exact ⟨hstat, htrip,
    critical_trip_display_floor debrisCtx TripCause.DEBRIS_IMPACT hstat htrip⟩

/-- The display mapping of PumpPredictor._update_smoothing_and_status:
scale the upper range of the smoothed probability so that displayed risk can
reach 95-100 percent (predictor.py lines 308-315). -/
def displayProb (smoothed_prob : ℚ) : ℚ :=
  if smoothed_prob ≥ 65/100 then
    min 1 (85/100 + (smoothed_prob - 65/100) * (15/100 / (35/100)))
  else smoothed_prob

/-- Modelled from the spec wording of C6 only, for comparison with
displayProb: the affine map sending the interval [0.65, 1.00] onto
[0.85, 1.00] (0.65 to 0.85 and 1 to 1). -/
def displayLinearMapSpec (s : ℚ) : ℚ :=
  85/100 + (s - 65/100) * ((1 - 85/100) / (1 - 65/100))

/-- C6: on [0.65, 1] the displayed probability equals the linear map of
[0.65, 1.00] onto [0.85, 1.00], hence lies in [0.85, 1]; below 0.65 it is
the identity; and the mapping is non-decreasing on [0.65, 1]. -/
theorem display_mapping (s : ℚ) :
    (65/100 ≤ s → s ≤ 1 →
      displayProb s = displayLinearMapSpec s ∧
      85/100 ≤ displayProb s ∧ displayProb s ≤ 1) ∧
    (s < 65/100 → displayProb s = s) ∧
    (∀ t : ℚ, 65/100 ≤ s → s ≤ t → t ≤ 1 →
      displayProb s ≤ displayProb t) := by
  have key : ∀ u : ℚ, 65/100 ≤ u → u ≤ 1 →
      displayProb u = 85/100 + (u - 65/100) * (3/7) := by
    intro u hu hu1
    rw [displayProb, if_pos hu]
    rw [min_eq_right (by nlinarith)]
    norm_num
  refine ⟨fun hs hs1 => ?_, fun hs => ?_, fun t hs hst ht1 => ?_⟩
  · rw [key s hs hs1]
    refine ⟨by rw [displayLinearMapSpec]; ring, by nlinarith, by nlinarith⟩
  · rw [displayProb, if_neg (by linarith)]
  · rw [key s hs (hst.trans ht1), key t (hs.trans hst) ht1]
    nlinarith

/-- Witness for C6 at s = 0.7 and t = 0.9. -/
theorem display_mapping_witness :
    (displayProb (7/10) = displayLinearMapSpec (7/10) ∧
      85/100 ≤ displayProb (7/10) ∧ displayProb (7/10) ≤ 1) ∧
    displayProb (1/2) = 1/2 ∧
    displayProb (7/10) ≤ displayProb (9/10) :=
  ⟨(display_mapping (7/10)).1 (by norm_num) (by norm_num),
   (display_mapping (1/2)).2.1 (by norm_num),
   (display_mapping (7/10)).2.2 (9/10) (by norm_num) (by norm_num) (by norm_num)⟩

/-- Alpha selection of the asymmetric smoothing
(PumpPredictor._update_smoothing_and_status, predictor.py lines 289-303):
0.92 when rising into the high-risk band, 0.70 when rising, 0.65 when
falling or flat. -/
def selectAlpha (instant_prob smoothed : ℚ) : ℚ :=
  if instant_prob > smoothed ∧ instant_prob ≥ SMOOTH_HIGH_RISK_THRESHOLD then
    SMOOTH_ALPHA_VERY_HIGH
  else if instant_prob > smoothed then SMOOTH_ALPHA_RISING
  else SMOOTH_ALPHA_FALLING

/-- One smoothing update: smoothed = alpha * instant + (1 - alpha) * smoothed
(predictor.py line 304). -/
def smoothUpdate (instant_prob smoothed : ℚ) : ℚ :=
  selectAlpha instant_prob smoothed * instant_prob +
    (1 - selectAlpha instant_prob smoothed) * smoothed

/-- The smoothed-risk sequence obtained by holding instant_prob constant at p
from initial smoothed risk s0 (when the prior smoothed risk is None the
source initialises it to instant_prob, the case s0 = p). -/
def smoothSeq (p s0 : ℚ) : ℕ → ℚ
  | 0 => s0
  | n + 1 => smoothUpdate p (smoothSeq p s0 n)

theorem selectAlpha_bounds (p s : ℚ) :
    0 ≤ 1 - selectAlpha p s ∧ 1 - selectAlpha p s ≤ 7/20 := by
  rw [selectAlpha]
  split
  · norm_num [SMOOTH_ALPHA_VERY_HIGH]
  · split
    · norm_num [SMOOTH_ALPHA_RISING]
    · norm_num [SMOOTH_ALPHA_FALLING]

/-- One update contracts the distance to p by the factor 1 - alpha. -/
theorem smoothUpdate_dist (p s : ℚ) :
    |smoothUpdate p s - p| = (1 - selectAlpha p s) * |s - p| := by
  have h : smoothUpdate p s - p = (1 - selectAlpha p s) * (s - p) := by
    rw [smoothUpdate]; ring
  rw [h, abs_mul, abs_of_nonneg (selectAlpha_bounds p s).1]

/-- C7: holding instant_prob constant at p, the smoothed risk moves
monotonically toward p: the distance to p never increases, decays at least
geometrically (factor 7/20 per step), becomes eventually smaller than any
positive bound, and the sequence started fresh at p stays at p. -/
theorem smoothing_monotone_convergence (p s0 : ℚ) (_h0 : 0 ≤ p) (_h1 : p ≤ 1) :
    (∀ n, |smoothSeq p s0 (n + 1) - p| ≤ |smoothSeq p s0 n - p|) ∧
    (∀ n, |smoothSeq p s0 n - p| ≤ (7/20) ^ n * |s0 - p|) ∧
    (∀ ε : ℚ, 0 < ε → ∃ N, ∀ n, N ≤ n → |smoothSeq p s0 n - p| < ε) ∧
    (∀ n, smoothSeq p p n = p) := by
  have hstep : ∀ n, |smoothSeq p s0 (n + 1) - p| ≤ |smoothSeq p s0 n - p| := by
    intro n
    rw [smoothSeq, smoothUpdate_dist]
    have hb := selectAlpha_bounds p (smoothSeq p s0 n)
    have habs : 0 ≤ |smoothSeq p s0 n - p| := abs_nonneg _
    nlinarith
  have hgeom : ∀ n, |smoothSeq p s0 n - p| ≤ (7/20) ^ n * |s0 - p| := by
    intro n
    induction n with
    | zero => simp [smoothSeq]
    | succ k ih =>
      rw [smoothSeq, smoothUpdate_dist]
      have hb := selectAlpha_bounds p (smoothSeq p s0 k)
      have habs : 0 ≤ |smoothSeq p s0 k - p| := abs_nonneg _
      have hpow : (0:ℚ) ≤ (7/20) ^ k := pow_nonneg (by norm_num) k
      calc (1 - selectAlpha p (smoothSeq p s0 k)) * |smoothSeq p s0 k - p|
          ≤ (7/20) * |smoothSeq p s0 k - p| := by nlinarith
        _ ≤ (7/20) * ((7/20) ^ k * |s0 - p|) := by nlinarith
        _ = (7/20) ^ (k + 1) * |s0 - p| := by ring
  refine ⟨hstep, hgeom, fun ε hε => ?_, fun n => ?_⟩
  · obtain ⟨N, hN⟩ := exists_pow_lt_of_lt_one
      (show (0:ℚ) < ε / (|s0 - p| + 1) by positivity)
      (show (7:ℚ)/20 < 1 by norm_num)
    refine ⟨N, fun n hn => ?_⟩
    have habs0 : (0:ℚ) ≤ |s0 - p| := abs_nonneg _
    have hmono : ((7:ℚ)/20) ^ n ≤ (7/20) ^ N :=
      pow_le_pow_of_le_one (by norm_num) (by norm_num) hn
    have h2 : |smoothSeq p s0 n - p| ≤ (7/20) ^ N * |s0 - p| := by
      calc |smoothSeq p s0 n - p| ≤ (7/20) ^ n * |s0 - p| := hgeom n
        _ ≤ (7/20) ^ N * |s0 - p| := by nlinarith
    have h3 : ((7:ℚ)/20) ^ N * |s0 - p| < ε := by
      have hlt : ((7:ℚ)/20) ^ N * (|s0 - p| + 1) < ε := by
        have hpos : (0:ℚ) < |s0 - p| + 1 := by positivity
        calc ((7:ℚ)/20) ^ N * (|s0 - p| + 1)
            < ε / (|s0 - p| + 1) * (|s0 - p| + 1) := by nlinarith
          _ = ε := by field_simp
      have hpowN : (0:ℚ) ≤ (7/20) ^ N := pow_nonneg (by norm_num) N
      nlinarith
    linarith
  · induction n with
    | zero => rfl
    | succ k ih =>
      rw [smoothSeq, ih, smoothUpdate]
      ring

/-- Witness for C7 at p = 1/2 from s0 = 0. -/
theorem smoothing_monotone_convergence_witness :
    (∀ n, |smoothSeq (1/2) 0 (n + 1) - 1/2| ≤ |smoothSeq (1/2) 0 n - 1/2|) ∧
    (∀ n, |smoothSeq (1/2) 0 n - 1/2| ≤ (7/20) ^ n * |(0:ℚ) - 1/2|) ∧
    (∀ ε : ℚ, 0 < ε → ∃ N, ∀ n, N ≤ n → |smoothSeq (1/2) 0 n - 1/2| < ε) ∧
    (∀ n, smoothSeq (1/2) (1/2) n = 1/2) :=
  smoothing_monotone_convergence (1/2) 0 (by norm_num) (by norm_num)

/-- The healthy-nominal predicate _is_healthy_nominal (predictor.py lines
20-41), with every config_float argument resolved to its Config value:
vib < 4.5, 5.2 <= pressure < 7.0, 35 <= temp < 60, 40 < current < 50. -/
def isHealthyNominal (vib_rms pressure temp current : ℚ) : Prop :=
  vib_rms < VIBRATION_WARNING_MMPS ∧
  pressure ≥ DEGRADATION_PRESSURE_MAX_BAR ∧
  pressure < CHOKED_PRESSURE_MIN_BAR ∧
  temp < TEMP_WARNING_C ∧
  temp ≥ 35 ∧
  current > DEGRADATION_CURRENT_MAX_AMP ∧
  current < OVERLOAD_CURRENT_MIN_AMP

instance (v p t c : ℚ) : Decidable (isHealthyNominal v p t c) := by
  unfold isHealthyNominal; infer_instance

/-- The per-predictor smoothing state: feature buffer, risk history, current
smoothed risk, previous status and the consecutive-low-vibration counter
(PumpPredictor.__init__ / reset_smoothing). -/
structure SmoothingState where
  feature_buffer : List (List ℚ)
  risk_history : List ℚ
  smoothed_risk : Option ℚ
  last_status : Option Status
  critical_low_vib_steps : ℤ
deriving DecidableEq, Repr

/-- PumpPredictor.reset_smoothing: clear the risk history, the smoothed
risk, the feature buffer, the last status and the low-vibration counter. -/
def resetSmoothing : SmoothingState :=
  { feature_buffer := [], risk_history := [], smoothed_risk := none,
    last_status := none, critical_low_vib_steps := 0 }

/-- The recovery-reset step of PumpPredictor._update_smoothing_and_status
(predictor.py lines 256-264): after CRITICAL or WARNING, reset the smoothing
state when the latest sample is back in the healthy nominal zone. -/
def maybeResetSmoothing (st : SmoothingState)
    (vib pressure temp current : ℚ) : SmoothingState :=
  if (st.last_status = some Status.CRITICAL ∨
      st.last_status = some Status.WARNING) ∧
      isHealthyNominal vib pressure temp current then
    resetSmoothing
  else st

def SMOOTHING_WINDOW_SIZE : ℕ := 3

def RISK_HISTORY_SIZE : ℕ := 3

/-- Appending to a deque with maxlen: drop from the front once full. -/
def pushBounded {α : Type} (maxlen : ℕ) (l : List α) (x : α) : List α :=
  let l2 := l ++ [x]
  if l2.length ≤ maxlen then l2 else l2.drop (l2.length - maxlen)

/-- The state effects of one _update_smoothing_and_status call after the
optional recovery reset: append the feature row to the smoothing buffer,
fold instant_prob into the smoothed risk (initialising from None), and
append the result to the risk history.  last_status and the low-vibration
counter are persisted later by predict, after the rules have run. -/
def stepSmoothing (st : SmoothingState) (row : List ℚ)
    (vib pressure temp current instant_prob : ℚ) : SmoothingState :=
  let st1 := maybeResetSmoothing st vib pressure temp current
  let sm := match st1.smoothed_risk with
    | none => instant_prob
    | some s => smoothUpdate instant_prob s
  { st1 with
    feature_buffer := pushBounded SMOOTHING_WINDOW_SIZE st1.feature_buffer row
    smoothed_risk := some sm
    risk_history := pushBounded RISK_HISTORY_SIZE st1.risk_history sm }

/-- Modelled from the spec wording of C8 only, for comparison with
isHealthyNominal: vib < 4.5 mm/s, 5.2 <= pressure < 7.0 bar,
35 <= temp < 60 degrees, 40 < current < 50 A. -/
def healthyNominalSpec (vib pressure temp current : ℚ) : Prop :=
  vib < 45/10 ∧ 52/10 ≤ pressure ∧ pressure < 7 ∧
  35 ≤ temp ∧ temp < 60 ∧ 40 < current ∧ current < 50

/-- The source predicate coincides with the spec wording. -/
theorem isHealthyNominal_iff_spec (v p t c : ℚ) :
    isHealthyNominal v p t c ↔ healthyNominalSpec v p t c := by
  rw [isHealthyNominal, healthyNominalSpec, VIBRATION_WARNING_MMPS,
    DEGRADATION_PRESSURE_MAX_BAR, CHOKED_PRESSURE_MIN_BAR, TEMP_WARNING_C,
    DEGRADATION_CURRENT_MAX_AMP, OVERLOAD_CURRENT_MIN_AMP]
  constructor
  · rintro ⟨a, b, c1, d, e, f, g⟩
    exact ⟨a, b, c1, e, d, f, g⟩
  · rintro ⟨a, b, c1, d, e, f, g⟩
    exact ⟨a, b, c1, e, d, f, g⟩

/-- C8: when the previous status was WARNING or CRITICAL and the latest
sample is healthy nominal, the whole smoothing state is cleared before the
new feature vector is processed (the processed step then sees only the new
row, the fresh risk, and no previous status); otherwise the state is left
untouched. -/
theorem recovery_reset (st : SmoothingState) (row : List ℚ)
    (v p t c q : ℚ) :
    ((st.last_status = some Status.WARNING ∨
        st.last_status = some Status.CRITICAL) ∧ healthyNominalSpec v p t c →
      maybeResetSmoothing st v p t c = resetSmoothing ∧
      (stepSmoothing st row v p t c q).feature_buffer = [row] ∧
      (stepSmoothing st row v p t c q).risk_history = [q] ∧
      (stepSmoothing st row v p t c q).smoothed_risk = some q ∧
      (stepSmoothing st row v p t c q).last_status = none ∧
      (stepSmoothing st row v p t c q).critical_low_vib_steps = 0) ∧
    (¬((st.last_status = some Status.WARNING ∨
        st.last_status = some Status.CRITICAL) ∧ healthyNominalSpec v p t c) →
      maybeResetSmoothing st v p t c = st) := by
  constructor
  · rintro ⟨hlast, hnom⟩
    have hcond : (st.last_status = some Status.CRITICAL ∨
        st.last_status = some Status.WARNING) ∧ isHealthyNominal v p t c :=
      ⟨hlast.symm, (isHealthyNominal_iff_spec v p t c).mpr hnom⟩
    have hreset : maybeResetSmoothing st v p t c = resetSmoothing := by
      rw [maybeResetSmoothing, if_pos hcond]
    refine ⟨hreset, ?_, ?_, ?_, ?_, ?_⟩ <;>
      simp [stepSmoothing, hreset, resetSmoothing, pushBounded,
        SMOOTHING_WINDOW_SIZE, RISK_HISTORY_SIZE]
  · intro hneg
    rw [maybeResetSmoothing, if_neg]
    intro hcond
    exact hneg ⟨hcond.1.symm, (isHealthyNominal_iff_spec v p t c).mp hcond.2⟩

/-- A smoothing state carrying history after a WARNING step. -/
def warnedState : SmoothingState :=
  { feature_buffer := [[6, 3]], risk_history := [9/10],
    smoothed_risk := some (9/10), last_status := some Status.WARNING,
    critical_low_vib_steps := 2 }

/-- Witness for C8: a healthy-nominal sample (vib 3, pressure 5.8, temp 45,
current 45) clears the state of warnedState before processing; with vib 8 the
state is untouched. -/
theorem recovery_reset_witness :
    (maybeResetSmoothing warnedState 3 (58/10) 45 45 = resetSmoothing ∧
      (stepSmoothing warnedState [3] 3 (58/10) 45 45 (1/10)).feature_buffer = [[3]] ∧
      (stepSmoothing warnedState [3] 3 (58/10) 45 45 (1/10)).risk_history = [1/10] ∧
      (stepSmoothing warnedState [3] 3 (58/10) 45 45 (1/10)).smoothed_risk = some (1/10) ∧
      (stepSmoothing warnedState [3] 3 (58/10) 45 45 (1/10)).last_status = none ∧
      (stepSmoothing warnedState [3] 3 (58/10) 45 45 (1/10)).critical_low_vib_steps = 0) ∧
    maybeResetSmoothing warnedState 8 (58/10) 45 45 = warnedState :=
  ⟨(recovery_reset warnedState [3] 3 (58/10) 45 45 (1/10)).1
      ⟨Or.inl rfl, by norm_num [healthyNominalSpec]⟩,
   (recovery_reset warnedState [8] 8 (58/10) 45 45 (1/10)).2
      (fun h => absurd h.2.1 (by norm_num))⟩

/-- A CRITICAL context inside the 7.1-9.0 alarm band whose smoothed
vibration is exactly 7.1 + 1.9 * (149/150) mm/s, the point where the
InterlockRule display ramp evaluates to exactly 0.999. -/
def rampCtx : RuleContext :=
  { vib_rms := 13481/1500, vib_crest := 3, current := 45, pressure := 6,
    temp := 42, latest_vib := 95/10, latest_crest := 3, latest_current := 45,
    latest_pressure := 6, latest_temp := 42, smoothed_prob := 7/10,
    prev_reason := none, last_status := some Status.CRITICAL,
    debris_flag := false, status := .CRITICAL, reason := some .vibZoneD,
    display_prob := 0, critical_low_vib_steps := 0, trip_cause := none,
    alarm_causes := [.VIB_ZONE_D] }

/-- Counterexample to C9 as stated: with smoothed vibration strictly below
9.0 (and latest vibration at 9.5), InterlockRule still outputs a display
probability of exactly 0.999 -- produced by the 0.85-1.00 alarm-band ramp,
not by the interlock branch. -/
theorem interlock_ramp_hits_999 :
    rampCtx.vib_rms < VIBRATION_INTERLOCK_MMPS ∧
    rampCtx.latest_vib ≥ VIBRATION_INTERLOCK_MMPS ∧
    (interlockRule rampCtx).display_prob = 999/1000 := by
  refine ⟨by norm_num [rampCtx, VIBRATION_INTERLOCK_MMPS],
    by norm_num [rampCtx, VIBRATION_INTERLOCK_MMPS], ?_⟩
  rw [interlockRule,
    if_neg (by norm_num [rampCtx, VIBRATION_INTERLOCK_MMPS]),
    if_pos (by norm_num [rampCtx, VIBRATION_INTERLOCK_MMPS,
      VIBRATION_CRITICAL_MMPS])]
  show min 1 (max rampCtx.display_prob _) = 999/1000
  rw [if_pos (by norm_num [VIBRATION_INTERLOCK_MMPS, VIBRATION_CRITICAL_MMPS])]
  have harith : (85:ℚ)/100 +
      (rampCtx.vib_rms - VIBRATION_CRITICAL_MMPS) /
        (VIBRATION_INTERLOCK_MMPS - VIBRATION_CRITICAL_MMPS) * (15/100) =
      999/1000 := by
    norm_num [rampCtx, VIBRATION_INTERLOCK_MMPS, VIBRATION_CRITICAL_MMPS]
  rw [harith, max_eq_right (by norm_num [rampCtx]),
    min_eq_right (by norm_num)]

/-- Below the interlock limit, InterlockRule can only touch the display
probability (via the alarm-band ramp): status, reason, trip cause, alarm
causes and the hysteresis counter pass through. -/
theorem interlockRule_no_fire_fields (ctx : RuleContext)
    (h : ctx.vib_rms < VIBRATION_INTERLOCK_MMPS) :
    (interlockRule ctx).status = ctx.status ∧
    (interlockRule ctx).reason = ctx.reason ∧
    (interlockRule ctx).trip_cause = ctx.trip_cause ∧
    (interlockRule ctx).alarm_causes = ctx.alarm_causes ∧
    (interlockRule ctx).critical_low_vib_steps = ctx.critical_low_vib_steps := by
  rw [interlockRule, if_neg (not_le.mpr h)]
  split
  · exact ⟨rfl, rfl, rfl, rfl, rfl⟩
  · exact ⟨rfl, rfl, rfl, rfl, rfl⟩

/-- C9 amended: whenever the smoothed vibration is below the interlock limit
(9.0 mm/s), InterlockRule leaves status, reason, trip cause and alarm causes
unchanged -- even when the latest vibration is at or above 9.0; only the
display probability may move, via the 0.85-1.00 alarm-band ramp. -/
theorem interlock_reads_smoothed_only (ctx : RuleContext)
    (h : ctx.vib_rms < VIBRATION_INTERLOCK_MMPS) :
    (interlockRule ctx).status = ctx.status ∧
    (interlockRule ctx).reason = ctx.reason ∧
    (interlockRule ctx).trip_cause = ctx.trip_cause ∧
    (interlockRule ctx).alarm_causes = ctx.alarm_causes := by
  obtain ⟨h1, h2, h3, h4, _h5⟩ := interlockRule_no_fire_fields ctx h
  exact ⟨h1, h2, h3, h4⟩

/-- Witness for the amended C9 at rampCtx (smoothed 8.987, latest 9.5). -/
theorem interlock_reads_smoothed_only_witness :
    (interlockRule rampCtx).status = rampCtx.status ∧
    (interlockRule rampCtx).reason = rampCtx.reason ∧
    (interlockRule rampCtx).trip_cause = rampCtx.trip_cause ∧
    (interlockRule rampCtx).alarm_causes = rampCtx.alarm_causes :=
  interlock_reads_smoothed_only rampCtx
    (by norm_num [rampCtx, VIBRATION_INTERLOCK_MMPS])

/-- Conditional append keeps the list free of duplicates. -/
theorem appendIfAbsent_nodup (l : List AlarmCause) (a : AlarmCause)
    (h : l.Nodup) : (appendIfAbsent l a).Nodup := by
  rw [appendIfAbsent]
  split
  · exact h
  · simp_all [List.nodup_append]

theorem mechanicalRule_alarms_nodup (ctx : RuleContext)
    (h : ctx.alarm_causes.Nodup) :
    (mechanicalRule ctx).alarm_causes.Nodup := by
  simp only [mechanicalRule, mechanicalFire]
  repeat' split
  all_goals first
    | exact h
    | exact appendIfAbsent_nodup _ _ h

theorem cavitationRule_alarms_nodup (ctx : RuleContext)
    (h : ctx.alarm_causes.Nodup) :
    (cavitationRule ctx).alarm_causes.Nodup := by
  simp only [cavitationRule]
  repeat' split
  all_goals first
    | exact h
    | exact appendIfAbsent_nodup _ _ h

theorem chokedRule_alarms_nodup (ctx : RuleContext)
    (h : ctx.alarm_causes.Nodup) :
    (chokedRule ctx).alarm_causes.Nodup := by
  simp only [chokedRule]
  repeat' split
  all_goals first
    | exact h
    | exact appendIfAbsent_nodup _ _ h

theorem degradationRule_alarms_nodup (ctx : RuleContext)
    (h : ctx.alarm_causes.Nodup) :
    (degradationRule ctx).alarm_causes.Nodup := by
  simp only [degradationRule]
  repeat' split
  all_goals exact h

theorem degradationHysteresisRule_alarms_nodup (ctx : RuleContext)
    (h : ctx.alarm_causes.Nodup) :
    (degradationHysteresisRule ctx).alarm_causes.Nodup := by
  simp only [degradationHysteresisRule]
  repeat' split
  all_goals exact h

theorem temperatureRule_alarms_nodup (ctx : RuleContext)
    (h : ctx.alarm_causes.Nodup) :
    (temperatureRule ctx).alarm_causes.Nodup := by
  simp only [temperatureRule]
  repeat' split
  all_goals first
    | exact h
    | exact appendIfAbsent_nodup _ _ h

theorem overloadRule_alarms_nodup (ctx : RuleContext)
    (h : ctx.alarm_causes.Nodup) :
    (overloadRule ctx).alarm_causes.Nodup := by
  simp only [overloadRule]
  repeat' split
  all_goals exact h

theorem highPressureRule_alarms_nodup (ctx : RuleContext)
    (h : ctx.alarm_causes.Nodup) :
    (highPressureRule ctx).alarm_causes.Nodup := by
  simp only [highPressureRule]
  repeat' split
  all_goals exact h

theorem airIngestionRule_alarms_nodup (ctx : RuleContext)
    (h : ctx.alarm_causes.Nodup) :
    (airIngestionRule ctx).alarm_causes.Nodup := by
  simp only [airIngestionRule]
  repeat' split
  all_goals exact h

theorem vibrationZoneRule_alarms_nodup (ctx : RuleContext)
    (h : ctx.alarm_causes.Nodup) :
    (vibrationZoneRule ctx).alarm_causes.Nodup := by
  simp only [vibrationZoneRule]
  repeat' split
  all_goals first
    | exact h
    | exact appendIfAbsent_nodup _ _ h

theorem vibrationHysteresisRule_alarms_nodup (ctx : RuleContext)
    (h : ctx.alarm_causes.Nodup) :
    (vibrationHysteresisRule ctx).alarm_causes.Nodup := by
  simp only [vibrationHysteresisRule]
  repeat' split
  all_goals exact h

theorem interlockRule_alarms_nodup (ctx : RuleContext)
    (h : ctx.alarm_causes.Nodup) :
    (interlockRule ctx).alarm_causes.Nodup := by
  simp only [interlockRule]
  repeat' split
  all_goals first
    | exact h
    | exact appendIfAbsent_nodup _ _ h

theorem finalCleanupRule_alarms_nodup (ctx : RuleContext)
    (h : ctx.alarm_causes.Nodup) :
    (finalCleanupRule ctx).alarm_causes.Nodup := by
  rw [(finalCleanupRule_trip_alarms ctx).2]
  exact h

/-- Every rule of the fixed pipeline preserves duplicate-freeness of the
alarm-cause list, because every append is guarded by a membership check. -/
theorem rules_alarms_nodup (f : RuleContext → RuleContext) (hf : f ∈ RULES)
    (ctx : RuleContext) (h : ctx.alarm_causes.Nodup) :
    (f ctx).alarm_causes.Nodup := by
  simp only [RULES, List.mem_cons, List.not_mem_nil, or_false] at hf
  rcases hf with rfl | rfl | rfl | rfl | rfl | rfl | rfl | rfl | rfl | rfl |
    rfl | rfl | rfl
  · exact mechanicalRule_alarms_nodup ctx h
  · exact cavitationRule_alarms_nodup ctx h
  · exact chokedRule_alarms_nodup ctx h
  · exact degradationRule_alarms_nodup ctx h
  · exact degradationHysteresisRule_alarms_nodup ctx h
  · exact temperatureRule_alarms_nodup ctx h
  · exact overloadRule_alarms_nodup ctx h
  · exact highPressureRule_alarms_nodup ctx h
  · exact airIngestionRule_alarms_nodup ctx h
  · exact vibrationZoneRule_alarms_nodup ctx h
  · exact vibrationHysteresisRule_alarms_nodup ctx h
  · exact interlockRule_alarms_nodup ctx h
  · exact finalCleanupRule_alarms_nodup ctx h

theorem runRules_alarms_nodup (rs : List (RuleContext → RuleContext))
    (hrs : ∀ f ∈ rs, ∀ ctx : RuleContext,
      ctx.alarm_causes.Nodup → (f ctx).alarm_causes.Nodup)
    (ctx : RuleContext) (h : ctx.alarm_causes.Nodup) :
    (runRules rs ctx).alarm_causes.Nodup := by
  induction rs generalizing ctx with
  | nil => exact h
  | cons f tl ih =>
    exact ih (fun g hg => hrs g (List.mem_cons_of_mem f hg)) (f ctx)
      (hrs f (List.mem_cons_self f tl) ctx h)

/-- C10: starting from an empty alarm-cause list, the full fixed-order
pipeline never records the same alarm cause twice. -/
theorem alarm_causes_no_duplicates (ctx : RuleContext)
    (h : ctx.alarm_causes = []) :
    (runPipeline ctx).alarm_causes.Nodup :=
  runRules_alarms_nodup RULES
    (fun f hf ctx h => rules_alarms_nodup f hf ctx h) ctx
    (by rw [h]; exact List.nodup_nil)

/-- Witness for C10 at the debris-impact context. -/
theorem alarm_causes_no_duplicates_witness :
    (runPipeline debrisCtx).alarm_causes.Nodup :=
  alarm_causes_no_duplicates debrisCtx rfl

/- Telemetry validation (app/telemetry_validator.py) and batch preparation
(app/data_processor.py).  A telemetry record is a dict; fields may be absent
(record.get(name, 0.0) substitutes 0.0, which is inside every configured
range).  Values are modelled as rationals, so the float()-conversion error
path (INVALID_NUMERIC) does not arise. -/

def TELEMETRY_VIB_RMS_MIN : ℚ := 0
def TELEMETRY_VIB_RMS_MAX : ℚ := 25
def TELEMETRY_PRESSURE_MIN : ℚ := 0
def TELEMETRY_PRESSURE_MAX : ℚ := 15
def TELEMETRY_TEMP_MIN : ℚ := -20
def TELEMETRY_TEMP_MAX : ℚ := 120
def TELEMETRY_CURRENT_MIN : ℚ := 0
def TELEMETRY_CURRENT_MAX : ℚ := 80
def TELEMETRY_CAVITATION_INDEX_MIN : ℚ := 0
def TELEMETRY_CAVITATION_INDEX_MAX : ℚ := 50

/-- One raw telemetry record (missing dict keys are none). -/
structure TelemetryRecord where
  vib_rms : Option ℚ := none
  pressure : Option ℚ := none
  temp : Option ℚ := none
  current : Option ℚ := none
  cavitation_index : Option ℚ := none
  vib_crest : Option ℚ := none
  vib_kurtosis : Option ℚ := none
deriving DecidableEq, Repr

/-- The error details produced by validate_telemetry_record, carrying the
offending value exactly as the Python f-string interpolates it. -/
inductive RangeError where
  | VIB_RMS_OUT_OF_RANGE (v : ℚ)
  | PRESSURE_OUT_OF_RANGE (v : ℚ)
  | TEMP_OUT_OF_RANGE (v : ℚ)
  | CURRENT_OUT_OF_RANGE (v : ℚ)
  | CAVITATION_INDEX_OUT_OF_RANGE (v : ℚ)
deriving DecidableEq, Repr

/-- validate_telemetry_record: the five range checks in source order; none
means (True, "") and some e means (False, detail). -/
def validate_telemetry_record (r : TelemetryRecord) : Option RangeError :=
  let vib := r.vib_rms.getD 0
  let p := r.pressure.getD 0
  let t := r.temp.getD 0
  let i := r.current.getD 0
  let cav := r.cavitation_index.getD 0
  if ¬(TELEMETRY_VIB_RMS_MIN ≤ vib ∧ vib ≤ TELEMETRY_VIB_RMS_MAX) then
    some (.VIB_RMS_OUT_OF_RANGE vib)
  else if ¬(TELEMETRY_PRESSURE_MIN ≤ p ∧ p ≤ TELEMETRY_PRESSURE_MAX) then
    some (.PRESSURE_OUT_OF_RANGE p)
  else if ¬(TELEMETRY_TEMP_MIN ≤ t ∧ t ≤ TELEMETRY_TEMP_MAX) then
    some (.TEMP_OUT_OF_RANGE t)
  else if ¬(TELEMETRY_CURRENT_MIN ≤ i ∧ i ≤ TELEMETRY_CURRENT_MAX) then
    some (.CURRENT_OUT_OF_RANGE i)
  else if ¬(TELEMETRY_CAVITATION_INDEX_MIN ≤ cav ∧
      cav ≤ TELEMETRY_CAVITATION_INDEX_MAX) then
    some (.CAVITATION_INDEX_OUT_OF_RANGE cav)
  else none

/-- Batch-level status strings, modelled structurally:
OK, "EMPTY_BUFFER", "INVALID_RANGE:" ++ detail, "MISSING_COLUMNS:" ++ the
comma-joined missing column names. -/
inductive BatchStatus where
  | OK
  | EMPTY_BUFFER
  | INVALID_RANGE (e : RangeError)
  | MISSING_COLUMNS (cols : List String)
deriving DecidableEq, Repr

/-- validate_telemetry_batch: reject the whole batch on the first record
that fails validation; empty input is EMPTY_BUFFER. -/
def validate_telemetry_batch (buffer : List TelemetryRecord) :
    Option (List TelemetryRecord) × BatchStatus :=
  if buffer = [] then (none, .EMPTY_BUFFER)
  else
    match buffer.findSome? validate_telemetry_record with
    | some e => (none, .INVALID_RANGE e)
    | none => (some buffer, .OK)

/-- Dict access by column name, for the pandas column check of
prepare_batch (a DataFrame built from a list of dicts has a column exactly
when some record carries the key). -/
def TelemetryRecord.getField (r : TelemetryRecord) : String → Option ℚ
  | "vib_rms" => r.vib_rms
  | "current" => r.current
  | "pressure" => r.pressure
  | "temp" => r.temp
  | "vib_crest" => r.vib_crest
  | "vib_kurtosis" => r.vib_kurtosis
  | "cavitation_index" => r.cavitation_index
  | _ => none

/-- The required column list of DataProcessor.prepare_batch. -/
def requiredColumns : List String :=
  ["vib_rms", "current", "pressure", "temp", "vib_crest", "vib_kurtosis",
   "cavitation_index"]

/-- DataProcessor.prepare_batch, parametrised by the feature extraction
(FeatureExtractor().get_feature_vector); the claim quantifies over it.  The
third component is iso_vib_rms, always None since USE_ISO_BAND_FOR_ZONES is
False in Config. -/
def prepare_batch {F : Type} (featurize : List TelemetryRecord → F)
    (buffer : List TelemetryRecord) : Option F × BatchStatus × Option ℚ :=
  if buffer = [] then (none, .EMPTY_BUFFER, none)
  else
    match validate_telemetry_batch buffer with
    | (none, validation_status) => (none, validation_status, none)
    | (some valid_list, _) =>
      let missing := requiredColumns.filter
        (fun c => ¬ valid_list.any (fun r => (r.getField c).isSome))
      if missing ≠ [] then (none, .MISSING_COLUMNS missing, none)
      else (some (featurize valid_list), .OK, none)

/-- Modelled from the spec wording of C5 only: the record has a present
numeric field outside its configured range. -/
def recordOutOfRangeSpec (r : TelemetryRecord) : Prop :=
  (∃ v, r.vib_rms = some v ∧ ¬(0 ≤ v ∧ v ≤ 25)) ∨
  (∃ v, r.pressure = some v ∧ ¬(0 ≤ v ∧ v ≤ 15)) ∨
  (∃ v, r.temp = some v ∧ ¬(-20 ≤ v ∧ v ≤ 120)) ∨
  (∃ v, r.current = some v ∧ ¬(0 ≤ v ∧ v ≤ 80)) ∨
  (∃ v, r.cavitation_index = some v ∧ ¬(0 ≤ v ∧ v ≤ 50))

/-- A record with a present out-of-range field never validates. -/
theorem recordOutOfRange_invalid (r : TelemetryRecord)
    (h : recordOutOfRangeSpec r) :
    ∃ e, validate_telemetry_record r = some e := by
  simp only [validate_telemetry_record]
  repeat' split
  case _ => exact ⟨_, rfl⟩
  case _ => exact ⟨_, rfl⟩
  case _ => exact ⟨_, rfl⟩
  case _ => exact ⟨_, rfl⟩
  case _ => exact ⟨_, rfl⟩
  case _ h1 h2 h3 h4 h5 =>
    exfalso
    push_neg at h1 h2 h3 h4 h5
    simp only [TELEMETRY_VIB_RMS_MIN, TELEMETRY_VIB_RMS_MAX,
      TELEMETRY_PRESSURE_MIN, TELEMETRY_PRESSURE_MAX, TELEMETRY_TEMP_MIN,
      TELEMETRY_TEMP_MAX, TELEMETRY_CURRENT_MIN, TELEMETRY_CURRENT_MAX,
      TELEMETRY_CAVITATION_INDEX_MIN, TELEMETRY_CAVITATION_INDEX_MAX] at h1 h2 h3 h4 h5
    rcases h with ⟨v, hv, hout⟩ | ⟨v, hv, hout⟩ | ⟨v, hv, hout⟩ |
      ⟨v, hv, hout⟩ | ⟨v, hv, hout⟩
    · rw [hv] at h1; simp only [Option.getD_some] at h1; exact hout h1
    · rw [hv] at h2; simp only [Option.getD_some] at h2; exact hout h2
    · rw [hv] at h3; simp only [Option.getD_some] at h3; exact hout h3
    · rw [hv] at h4; simp only [Option.getD_some] at h4; exact hout h4
    · rw [hv] at h5; simp only [Option.getD_some] at h5; exact hout h5

theorem findSome?_none_forall {α β : Type} (f : α → Option β) (l : List α)
    (h : List.findSome? f l = none) : ∀ x ∈ l, f x = none := by
  induction l with
  | nil => intro x hx; cases hx
  | cons b tl ih =>
    intro x hx
    cases hfb : f b with
    | some v =>
      simp only [List.findSome?_cons, hfb] at h
      exact Option.noConfusion h
    | none =>
      simp only [List.findSome?_cons, hfb] at h
      rcases List.mem_cons.mp hx with rfl | hx2
      · exact hfb
      · exact ih h x hx2

/-- A fully in-range telemetry record. -/
def nominalRecord : TelemetryRecord :=
  { vib_rms := some 2, pressure := some 6, temp := some 42,
    current := some 45, cavitation_index := some (1/20),
    vib_crest := some 3, vib_kurtosis := some (32/10) }

/-- The nominal record with temperature 150, above TELEMETRY_TEMP_MAX. -/
def hotRecord : TelemetryRecord := { nominalRecord with temp := some 150 }

/-- An otherwise valid batch containing one record with temp = 150. -/
def invalidTempBatch : List TelemetryRecord := [nominalRecord, hotRecord]

/-- C5: a non-empty batch with any record carrying a present field outside
its configured range is rejected whole: validate_telemetry_batch returns no
records and an INVALID_RANGE status; on the temp-150 batch the status is
exactly INVALID_RANGE (TEMP_OUT_OF_RANGE 150); prepare_batch produces no
feature vector whenever validation returns no records (for every feature
extraction); and an empty batch yields EMPTY_BUFFER. -/
theorem batch_validation_closure :
    (∀ buffer : List TelemetryRecord, buffer ≠ [] →
      (∃ r ∈ buffer, recordOutOfRangeSpec r) →
      (validate_telemetry_batch buffer).1 = none ∧
      ∃ e, (validate_telemetry_batch buffer).2 = BatchStatus.INVALID_RANGE e) ∧
    validate_telemetry_batch invalidTempBatch =
      (none, BatchStatus.INVALID_RANGE (RangeError.TEMP_OUT_OF_RANGE 150)) ∧
    (∀ (F : Type) (featurize : List TelemetryRecord → F)
      (buffer : List TelemetryRecord),
      (validate_telemetry_batch buffer).1 = none →
      (prepare_batch featurize buffer).1 = none) ∧
    validate_telemetry_batch ([] : List TelemetryRecord) =
      (none, BatchStatus.EMPTY_BUFFER) ∧
    (∀ (F : Type) (featurize : List TelemetryRecord → F),
      prepare_batch featurize [] = (none, BatchStatus.EMPTY_BUFFER, none)) := by
  refine ⟨?_, ?_, ?_, ?_, ?_⟩
  · intro buffer hne ⟨r, hr, hout⟩
    rw [validate_telemetry_batch, if_neg hne]
    cases hfind : buffer.findSome? validate_telemetry_record with
    | some e => exact ⟨rfl, e, rfl⟩
    | none =>
      obtain ⟨e, he⟩ := recordOutOfRange_invalid r hout
      have := findSome?_none_forall validate_telemetry_record buffer hfind r hr
      rw [he] at this
      exact Option.noConfusion this
  · have h1 : validate_telemetry_record nominalRecord = none := by
      rw [validate_telemetry_record]
      norm_num [nominalRecord, TELEMETRY_VIB_RMS_MIN, TELEMETRY_VIB_RMS_MAX,
        TELEMETRY_PRESSURE_MIN, TELEMETRY_PRESSURE_MAX, TELEMETRY_TEMP_MIN,
        TELEMETRY_TEMP_MAX, TELEMETRY_CURRENT_MIN, TELEMETRY_CURRENT_MAX,
        TELEMETRY_CAVITATION_INDEX_MIN, TELEMETRY_CAVITATION_INDEX_MAX]
    have h2 : validate_telemetry_record hotRecord =
        some (RangeError.TEMP_OUT_OF_RANGE 150) := by
      rw [validate_telemetry_record]
      rw [if_neg, if_neg, if_pos]
      · norm_num [hotRecord, nominalRecord]
      · norm_num [hotRecord, nominalRecord, TELEMETRY_TEMP_MIN,
          TELEMETRY_TEMP_MAX]
      · norm_num [hotRecord, nominalRecord, TELEMETRY_PRESSURE_MIN,
          TELEMETRY_PRESSURE_MAX]
      · norm_num [hotRecord, nominalRecord, TELEMETRY_VIB_RMS_MIN,
          TELEMETRY_VIB_RMS_MAX]
    rw [validate_telemetry_batch, if_neg (by simp [invalidTempBatch])]
    rw [show invalidTempBatch.findSome? validate_telemetry_record =
        some (RangeError.TEMP_OUT_OF_RANGE 150) by
      simp only [invalidTempBatch, List.findSome?_cons, h1, h2]]
  · intro F featurize buffer hval
    rw [prepare_batch]
    split
    · rfl
    · cases hv : validate_telemetry_batch buffer with
      | mk ol st =>
        cases ol with
        | none => simp [hv]
        | some l => rw [hv] at hval; exact Option.noConfusion hval
  · rfl
  · intro F featurize
    rfl

/-- Witness for C5: the general rejection clause applied to the concrete
temp-150 batch, plus the feature gate at an arbitrary extractor. -/
theorem batch_validation_closure_witness :
    (validate_telemetry_batch invalidTempBatch).1 = none ∧
    (∃ e, (validate_telemetry_batch invalidTempBatch).2 =
      BatchStatus.INVALID_RANGE e) ∧
    (prepare_batch (fun _ => ()) invalidTempBatch).1 = none := by
  have h := batch_validation_closure
  obtain ⟨hgen, _hconc, hprep, _hempty, _hprepEmpty⟩ := h
  have hrej := hgen invalidTempBatch (by simp [invalidTempBatch])
    ⟨hotRecord, by simp [invalidTempBatch],
      Or.inr (Or.inr (Or.inl ⟨150, by simp [hotRecord, nominalRecord],
        by norm_num⟩))⟩
  exact ⟨hrej.1, hrej.2, hprep Unit (fun _ => ()) invalidTempBatch hrej.1⟩

/- Per-step driver for the rule-related part of PumpPredictor.predict:
recovery reset of the persisted status and counter, base status and display
probability from the smoothed probability, then the rule pipeline. -/

/-- The persisted predictor state the rule pipeline consumes each step:
_last_status, _critical_low_vib_steps and last_alert_reason. -/
structure StepState where
  last_status : Option Status
  critical_low_vib_steps : ℤ
  prev_reason : Option Reason
deriving DecidableEq, Repr

/-- Base status from the smoothed probability
(PumpPredictor._update_smoothing_and_status lines 316-329). -/
def statusFromProb (smoothed_prob : ℚ) (is_startup : Bool) : Status :=
  if smoothed_prob ≥
      (if is_startup then PROB_CRITICAL_STARTUP else PROB_CRITICAL) then
    .CRITICAL
  else if smoothed_prob ≥ PROB_WARNING then .WARNING
  else .HEALTHY

/-- One predict step, restricted to the persisted rule state.  The smoothed
probability q produced by the model and risk history is an oracle input, as
are the smoothed and latest channel values.  The recovery reset (predictor.py
lines 256-264) clears _last_status and the counter before the RuleContext is
built; predict then runs the pipeline on a context with fresh outputs. -/
def predictRuleStep (st : StepState) (q : ℚ)
    (vib crest cur p t lvib lcrest lcur lp lt : ℚ) (debris : Bool) :
    RuleContext :=
  let reset := (st.last_status = some Status.CRITICAL ∨
      st.last_status = some Status.WARNING) ∧ isHealthyNominal lvib lp lt lcur
  runPipeline
    { vib_rms := vib, vib_crest := crest, current := cur, pressure := p,
      temp := t, latest_vib := lvib, latest_crest := lcrest,
      latest_current := lcur, latest_pressure := lp, latest_temp := lt,
      smoothed_prob := q, prev_reason := st.prev_reason,
      last_status := if reset then none else st.last_status,
      debris_flag := debris, status := statusFromProb q false,
      reason := none, display_prob := displayProb q,
      critical_low_vib_steps := if reset then 0 else st.critical_low_vib_steps,
      trip_cause := none, alarm_causes := [] }

theorem cavitationRule_not_fired (ctx : RuleContext)
    (h : ¬(cavitationSmoothedCond ctx ∨ cavitationLatestCond ctx ∨
      cavitationHysteresisCond ctx)) :
    cavitationRule ctx = ctx := by
  by_cases hg : ctx.reason ≠ none
  · rw [cavitationRule, if_pos hg]
  · rw [cavitationRule, if_neg hg, if_neg h]

theorem chokedRule_not_fired (ctx : RuleContext)
    (h : ¬((ctx.current ≤ CHOKED_CURRENT_MAX_AMP ∧
        ctx.pressure ≥ CHOKED_PRESSURE_MIN_BAR ∧
        ctx.temp ≥ CHOKED_TEMP_MIN_C) ∨
      (ctx.latest_current ≤ CHOKED_CURRENT_MAX_AMP ∧
        ctx.latest_pressure ≥ CHOKED_PRESSURE_MIN_BAR ∧
        ctx.latest_temp ≥ CHOKED_TEMP_MIN_C))) :
    chokedRule ctx = ctx := by
  by_cases hg : ctx.reason ≠ none
  · rw [chokedRule, if_pos hg]
  · simp only [chokedRule, if_neg hg]
    rw [if_neg h]

theorem degradationRule_not_fired (ctx : RuleContext)
    (h : ¬((ctx.current ≤ DEGRADATION_CURRENT_MAX_AMP ∧
        ctx.pressure ≤ DEGRADATION_PRESSURE_MAX_BAR) ∧
      (ctx.latest_current ≤ DEGRADATION_CURRENT_MAX_AMP ∧
        ctx.latest_pressure ≤ DEGRADATION_PRESSURE_MAX_BAR))) :
    degradationRule ctx = ctx := by
  by_cases hg : ctx.reason ≠ none ∨ ctx.status = .CRITICAL
  · rw [degradationRule, if_pos hg]
  · simp only [degradationRule, if_neg hg]
    rw [if_neg h]

theorem temperatureRule_not_fired (ctx : RuleContext)
    (h1 : ¬(ctx.temp ≥ TEMP_CRITICAL_C ∨ ctx.latest_temp ≥ TEMP_CRITICAL_C))
    (h2 : ¬(ctx.status ≠ .CRITICAL ∧
      (ctx.temp ≥ TEMP_WARNING_C ∨ ctx.latest_temp ≥ TEMP_WARNING_C) ∧
      ctx.status = .HEALTHY)) :
    temperatureRule ctx = ctx := by
  by_cases hg : ctx.reason ≠ none
  · rw [temperatureRule, if_pos hg]
  · rw [temperatureRule, if_neg hg, if_neg h1, if_neg h2]

theorem overloadRule_not_fired (ctx : RuleContext)
    (h : ¬(ctx.current ≥ OVERLOAD_CURRENT_MIN_AMP ∨
      ctx.latest_current ≥ OVERLOAD_CURRENT_MIN_AMP)) :
    overloadRule ctx = ctx := by
  by_cases hg : ctx.reason ≠ none ∨ ctx.status ≠ .HEALTHY
  · rw [overloadRule, if_pos hg]
  · rw [overloadRule, if_neg hg, if_neg h]

theorem highPressureRule_not_fired (ctx : RuleContext)
    (h : ¬((ctx.pressure ≥ PRESSURE_HIGH_WARNING_BAR ∨
        ctx.latest_pressure ≥ PRESSURE_HIGH_WARNING_BAR) ∧
      (ctx.current > CHOKED_CURRENT_MAX_AMP ∧
        ctx.latest_current > CHOKED_CURRENT_MAX_AMP))) :
    highPressureRule ctx = ctx := by
  by_cases hg : ctx.reason ≠ none ∨ ctx.status ≠ .HEALTHY
  · rw [highPressureRule, if_pos hg]
  · simp only [highPressureRule, if_neg hg]
    rw [if_neg h]

theorem airIngestionRule_not_fired (ctx : RuleContext)
    (h : ¬((ctx.vib_crest ≥ AIR_INGESTION_VIB_CREST_MIN ∨
        ctx.latest_crest ≥ AIR_INGESTION_VIB_CREST_MIN) ∧
      (ctx.vib_rms ≥ AIR_INGESTION_VIB_RMS_MIN_MMPS ∨
        ctx.latest_vib ≥ AIR_INGESTION_VIB_RMS_MIN_MMPS))) :
    airIngestionRule ctx = ctx := by
  by_cases hg : ctx.reason ≠ none ∨ ctx.status ≠ .HEALTHY
  · rw [airIngestionRule, if_pos hg]
  · simp only [airIngestionRule, if_neg hg]
    rw [if_neg h]

/-- Zone D branch of VibrationZoneRule when no higher-priority reason is
kept: the reason becomes the Zone D message. -/
theorem vibrationZoneRule_zoneD_set (ctx : RuleContext)
    (hv : ctx.vib_rms ≥ VIBRATION_CRITICAL_MMPS ∨
      ctx.latest_vib ≥ VIBRATION_CRITICAL_MMPS)
    (hk : ¬(ctx.reason = some Reason.mechanical ∨
      ctx.reason = some Reason.cavitation ∨
      ctx.reason.any Reason.isChokedMessage = true ∨
      ctx.reason.any Reason.hasHighTemperature = true)) :
    vibrationZoneRule ctx =
      { ctx with
        status := .CRITICAL
        display_prob := max ctx.display_prob (85/100)
        reason := some .vibZoneD
        alarm_causes := appendIfAbsent ctx.alarm_causes .VIB_ZONE_D } := by
  simp only [vibrationZoneRule, if_pos hv, if_neg hk]

/-- Neither hysteresis block applies when the previous status is not WARNING
and the incoming status is not WARNING. -/
theorem vibrationHysteresisRule_skip_of (ctx : RuleContext)
    (h1 : ctx.last_status ≠ some Status.WARNING)
    (h2 : ctx.status ≠ Status.WARNING) :
    vibrationHysteresisRule ctx = ctx := by
  simp only [vibrationHysteresisRule]
  rw [if_neg (show ¬(ctx.last_status = some Status.WARNING ∧
      ctx.status = Status.HEALTHY ∧
      (ctx.vib_rms ≥ VIBRATION_HYSTERESIS_EXIT_WARNING_MMPS ∨
        ctx.latest_vib ≥ VIBRATION_HYSTERESIS_EXIT_WARNING_MMPS))
    from by simp [h1])]
  rw [if_neg (by simp [h2])]

/-- The CRITICAL-exit block of VibrationHysteresisRule on a context that is
about to leave CRITICAL for WARNING: revert to CRITICAL while vibration is
at or above 6.0 or while fewer than 5 consecutive low-vibration steps have
accumulated. -/
theorem vibrationHysteresisRule_critical_exit (d : RuleContext)
    (hl : d.last_status = some Status.CRITICAL)
    (hs : d.status = Status.WARNING) :
    vibrationHysteresisRule d =
      if d.vib_rms ≥ VIBRATION_HYSTERESIS_EXIT_CRITICAL_MMPS ∨
          d.latest_vib ≥ VIBRATION_HYSTERESIS_EXIT_CRITICAL_MMPS then
        { d with status := .CRITICAL, critical_low_vib_steps := 0 }
      else if d.critical_low_vib_steps + 1 < CRITICAL_EXIT_MIN_LOW_VIB_STEPS then
        { d with
          status := .CRITICAL
          critical_low_vib_steps := d.critical_low_vib_steps + 1 }
      else { d with critical_low_vib_steps := 0 } := by
  simp only [vibrationHysteresisRule]
  rw [if_neg (show ¬(d.last_status = some Status.WARNING ∧
      d.status = Status.HEALTHY ∧
      (d.vib_rms ≥ VIBRATION_HYSTERESIS_EXIT_WARNING_MMPS ∨
        d.latest_vib ≥ VIBRATION_HYSTERESIS_EXIT_WARNING_MMPS))
    from by simp [hl])]
  rw [if_pos ⟨hl, hs⟩]

/-- FinalCleanupRule keeps a WARNING status. -/
theorem finalCleanupRule_status_warning (ctx : RuleContext)
    (h : ctx.status = Status.WARNING) :
    (finalCleanupRule ctx).status = Status.WARNING := by
  simp only [finalCleanupRule, if_neg (show ¬ctx.status = Status.CRITICAL by
    simp [h])]
  rw [if_neg (by simp [h])]
  exact h

/-- FinalCleanupRule never touches the low-vibration counter. -/
theorem finalCleanupRule_steps (ctx : RuleContext) :
    (finalCleanupRule ctx).critical_low_vib_steps =
      ctx.critical_low_vib_steps := by
  simp only [finalCleanupRule]
  repeat' split
  all_goals rfl

/-- FinalCleanupRule keeps the reason of a CRITICAL context whose reason is
not the Zone C maintenance message. -/
theorem finalCleanupRule_reason_critical (ctx : RuleContext)
    (hs : ctx.status = .CRITICAL)
    (hm : ctx.reason.any Reason.isMaintenanceMessage = false) :
    (finalCleanupRule ctx).reason = ctx.reason := by
  simp only [finalCleanupRule, if_pos hs]
  rw [if_neg (by simp [hs])]
  simp [hm]

/-- FinalCleanupRule does nothing on a non-CRITICAL context outside its
WARNING hysteresis condition. -/
theorem finalCleanupRule_skip (ctx : RuleContext)
    (h1 : ctx.status ≠ .CRITICAL)
    (h2 : ¬(ctx.last_status = some Status.WARNING ∧
      ctx.status = .HEALTHY ∧
      ctx.smoothed_prob ≥ PROB_HYSTERESIS_EXIT_WARNING)) :
    finalCleanupRule ctx = ctx := by
  simp only [finalCleanupRule, if_neg h1]
  rw [if_neg h2]

/-- The RuleContext built by step 1 of the C4 trace: Zone D vibration
(8.0 mm/s) on an otherwise nominal pump, model risk 0.2, no history. -/
def zoneDEntryCtx : RuleContext :=
  { vib_rms := 8, vib_crest := 3, current := 45, pressure := 6, temp := 42,
    latest_vib := 8, latest_crest := 3, latest_current := 45,
    latest_pressure := 6, latest_temp := 42, smoothed_prob := 2/10,
    prev_reason := none, last_status := none, debris_flag := false,
    status := .HEALTHY, reason := none, display_prob := 2/10,
    critical_low_vib_steps := 0, trip_cause := none, alarm_causes := [] }

/-- The RuleContext built by step 2 of the C4 trace: vibration back to
3.0 mm/s (below 4.5), pressure 5.0 bar (outside the healthy-nominal band,
so no recovery reset), previous status CRITICAL, model risk 0.2. -/
def afterCriticalCtx : RuleContext :=
  { vib_rms := 3, vib_crest := 3, current := 45, pressure := 5, temp := 42,
    latest_vib := 3, latest_crest := 3, latest_current := 45,
    latest_pressure := 5, latest_temp := 42, smoothed_prob := 2/10,
    prev_reason := some .vibZoneD, last_status := some Status.CRITICAL,
    debris_flag := false, status := .HEALTHY, reason := none,
    display_prob := 2/10, critical_low_vib_steps := 0, trip_cause := none,
    alarm_causes := [] }

theorem predictRuleStep_zoneD_entry :
    predictRuleStep ⟨none, 0, none⟩ (2/10) 8 3 45 6 42 8 3 45 6 42 false =
      runPipeline zoneDEntryCtx := by
  rw [predictRuleStep]
  congr 1
  norm_num [zoneDEntryCtx, statusFromProb, displayProb, PROB_CRITICAL,
    PROB_CRITICAL_STARTUP, PROB_WARNING]

theorem predictRuleStep_after_critical :
    predictRuleStep ⟨some Status.CRITICAL, 0, some Reason.vibZoneD⟩ (2/10)
      3 3 45 5 42 3 3 45 5 42 false = runPipeline afterCriticalCtx := by
  rw [predictRuleStep]
  congr 1
  have hnom : ¬ isHealthyNominal 3 5 42 45 := by
    norm_num [isHealthyNominal, VIBRATION_WARNING_MMPS,
      DEGRADATION_PRESSURE_MAX_BAR, CHOKED_PRESSURE_MIN_BAR, TEMP_WARNING_C,
      DEGRADATION_CURRENT_MAX_AMP, OVERLOAD_CURRENT_MIN_AMP]
  norm_num [afterCriticalCtx, statusFromProb, displayProb, PROB_CRITICAL,
    PROB_CRITICAL_STARTUP, PROB_WARNING, hnom]

/-- Step 1 of the C4 trace: the pipeline enters CRITICAL via Zone D. -/
theorem zoneDEntry_result :
    (runPipeline zoneDEntryCtx).status = Status.CRITICAL ∧
    (runPipeline zoneDEntryCtx).reason = some Reason.vibZoneD ∧
    (runPipeline zoneDEntryCtx).critical_low_vib_steps = 0 ∧
    AlarmCause.VIB_ZONE_D ∈ (runPipeline zoneDEntryCtx).alarm_causes := by
  rw [runPipeline_eq]
  have s1 : mechanicalRule zoneDEntryCtx = zoneDEntryCtx := by
    rw [mechanicalRule, if_neg, if_neg]
    all_goals norm_num [zoneDEntryCtx, DEBRIS_IMPACT_CREST_MIN,
      VIBRATION_CRITICAL_MMPS]
    all_goals simp
  rw [s1,
    cavitationRule_not_fired _ (by
      norm_num [cavitationSmoothedCond, cavitationLatestCond,
        cavitationHysteresisCond, zoneDEntryCtx, CAVITATION_CURRENT_MIN_AMP,
        CAVITATION_PRESSURE_MAX_BAR, CAVITATION_VIBRATION_MIN_MMPS,
        CAVITATION_HYSTERESIS_EXIT_PRESSURE_BAR]),
    chokedRule_not_fired _ (by
      norm_num [zoneDEntryCtx, CHOKED_CURRENT_MAX_AMP,
        CHOKED_PRESSURE_MIN_BAR, CHOKED_TEMP_MIN_C]),
    degradationRule_not_fired _ (by
      norm_num [zoneDEntryCtx, DEGRADATION_CURRENT_MAX_AMP,
        DEGRADATION_PRESSURE_MAX_BAR]),
    degradationHysteresisRule_skip _ (Or.inl (by simp [zoneDEntryCtx])),
    temperatureRule_not_fired _
      (by norm_num [zoneDEntryCtx, TEMP_CRITICAL_C])
      (by norm_num [zoneDEntryCtx, TEMP_WARNING_C]),
    overloadRule_not_fired _
      (by norm_num [zoneDEntryCtx, OVERLOAD_CURRENT_MIN_AMP]),
    highPressureRule_not_fired _
      (by norm_num [zoneDEntryCtx, PRESSURE_HIGH_WARNING_BAR,
        CHOKED_CURRENT_MAX_AMP]),
    airIngestionRule_not_fired _
      (by norm_num [zoneDEntryCtx, AIR_INGESTION_VIB_CREST_MIN,
        AIR_INGESTION_VIB_RMS_MIN_MMPS]),
    vibrationZoneRule_zoneD_set _
      (Or.inl (by norm_num [zoneDEntryCtx, VIBRATION_CRITICAL_MMPS]))
      (by simp [zoneDEntryCtx]),
    vibrationHysteresisRule_skip_none _ (by simp [zoneDEntryCtx])]
  have hI := interlockRule_no_fire_fields
    { zoneDEntryCtx with
      status := .CRITICAL
      display_prob := max zoneDEntryCtx.display_prob (85/100)
      reason := some .vibZoneD
      alarm_causes := appendIfAbsent zoneDEntryCtx.alarm_causes .VIB_ZONE_D }
    (by norm_num [zoneDEntryCtx, VIBRATION_INTERLOCK_MMPS])
  obtain ⟨hIs, hIr, _hIt, hIa, hIc⟩ := hI
  refine ⟨?_, ?_, ?_, ?_⟩
  · exact finalCleanupRule_status_critical _ (by rw [hIs])
  · rw [finalCleanupRule_reason_critical _ (by rw [hIs])
      (by rw [hIr]; simp [Reason.isMaintenanceMessage]), hIr]
  · rw [finalCleanupRule_steps, hIc]
    simp [zoneDEntryCtx]
  · rw [(finalCleanupRule_trip_alarms _).2, hIa]
    show AlarmCause.VIB_ZONE_D ∈
      appendIfAbsent zoneDEntryCtx.alarm_causes AlarmCause.VIB_ZONE_D
    exact mem_appendIfAbsent_self _ _

/-- Step 2 of the C4 trace: with vibration 3.0 and base status HEALTHY, no
rule fires and the step ends HEALTHY with zero low-vibration steps counted. -/
theorem afterCritical_result :
    runPipeline afterCriticalCtx = afterCriticalCtx := by
  rw [runPipeline_eq]
  have s1 : mechanicalRule afterCriticalCtx = afterCriticalCtx := by
    rw [mechanicalRule, if_neg, if_neg]
    all_goals norm_num [afterCriticalCtx, DEBRIS_IMPACT_CREST_MIN,
      VIBRATION_CRITICAL_MMPS]
  rw [s1,
    cavitationRule_not_fired _ (by
      norm_num [cavitationSmoothedCond, cavitationLatestCond,
        cavitationHysteresisCond, afterCriticalCtx,
        CAVITATION_CURRENT_MIN_AMP, CAVITATION_PRESSURE_MAX_BAR,
        CAVITATION_VIBRATION_MIN_MMPS,
        CAVITATION_HYSTERESIS_EXIT_PRESSURE_BAR]),
    chokedRule_not_fired _ (by
      norm_num [afterCriticalCtx, CHOKED_CURRENT_MAX_AMP,
        CHOKED_PRESSURE_MIN_BAR, CHOKED_TEMP_MIN_C]),
    degradationRule_not_fired _ (by
      norm_num [afterCriticalCtx, DEGRADATION_CURRENT_MAX_AMP,
        DEGRADATION_PRESSURE_MAX_BAR]),
    degradationHysteresisRule_skip _ (Or.inl (by simp [afterCriticalCtx])),
    temperatureRule_not_fired _
      (by norm_num [afterCriticalCtx, TEMP_CRITICAL_C])
      (by norm_num [afterCriticalCtx, TEMP_WARNING_C]),
    overloadRule_not_fired _
      (by norm_num [afterCriticalCtx, OVERLOAD_CURRENT_MIN_AMP]),
    highPressureRule_not_fired _
      (by norm_num [afterCriticalCtx, PRESSURE_HIGH_WARNING_BAR,
        CHOKED_CURRENT_MAX_AMP]),
    airIngestionRule_not_fired _
      (by norm_num [afterCriticalCtx, AIR_INGESTION_VIB_CREST_MIN,
        AIR_INGESTION_VIB_RMS_MIN_MMPS]),
    vibrationZoneRule_skip _
      (by norm_num [afterCriticalCtx, VIBRATION_CRITICAL_MMPS])
      (by norm_num [afterCriticalCtx, VIBRATION_WARNING_ENTRY_MMPS]),
    vibrationHysteresisRule_skip_of _ (by simp [afterCriticalCtx])
      (by simp [afterCriticalCtx]),
    interlockRule_skip _
      (by norm_num [afterCriticalCtx, VIBRATION_INTERLOCK_MMPS])
      (by norm_num [afterCriticalCtx, VIBRATION_CRITICAL_MMPS,
        VIBRATION_INTERLOCK_MMPS]),
    finalCleanupRule_skip _ (by simp [afterCriticalCtx])
      (by simp [afterCriticalCtx])]

/-- Counterexample to C4 as stated: step 1 ends CRITICAL via Zone D
vibration (alarm VIB_ZONE_D, reason Zone D); on the very next step the
vibration is 3.0 mm/s (below 4.5) yet the resulting status is HEALTHY with
zero consecutive low-vibration steps accumulated, because the base status of
the step is HEALTHY and the CRITICAL-exit hysteresis only guards the
CRITICAL-to-WARNING path. -/
theorem critical_exit_hysteresis_gap :
    (predictRuleStep ⟨none, 0, none⟩ (2/10)
      8 3 45 6 42 8 3 45 6 42 false).status = Status.CRITICAL ∧
    (predictRuleStep ⟨none, 0, none⟩ (2/10)
      8 3 45 6 42 8 3 45 6 42 false).reason = some Reason.vibZoneD ∧
    (predictRuleStep ⟨none, 0, none⟩ (2/10)
      8 3 45 6 42 8 3 45 6 42 false).critical_low_vib_steps = 0 ∧
    AlarmCause.VIB_ZONE_D ∈ (predictRuleStep ⟨none, 0, none⟩ (2/10)
      8 3 45 6 42 8 3 45 6 42 false).alarm_causes ∧
    (3:ℚ) < 45/10 ∧
    (predictRuleStep ⟨some Status.CRITICAL, 0, some Reason.vibZoneD⟩ (2/10)
      3 3 45 5 42 3 3 45 5 42 false).status = Status.HEALTHY ∧
    (predictRuleStep ⟨some Status.CRITICAL, 0, some Reason.vibZoneD⟩ (2/10)
      3 3 45 5 42 3 3 45 5 42 false).critical_low_vib_steps = 0 := by
  rw [predictRuleStep_zoneD_entry, predictRuleStep_after_critical,
    afterCritical_result]
  obtain ⟨h1, h2, h3, h4⟩ := zoneDEntry_result
  exact ⟨h1, h2, h3, h4, by norm_num, rfl, rfl⟩

theorem mechanicalRule_step_fields (ctx : RuleContext) :
    (mechanicalRule ctx).vib_rms = ctx.vib_rms ∧
    (mechanicalRule ctx).latest_vib = ctx.latest_vib ∧
    (mechanicalRule ctx).last_status = ctx.last_status ∧
    (mechanicalRule ctx).critical_low_vib_steps = ctx.critical_low_vib_steps := by
  refine ⟨?_, ?_, ?_, ?_⟩ <;>
    (simp only [mechanicalRule, mechanicalFire]; repeat' split) <;> rfl

theorem cavitationRule_step_fields (ctx : RuleContext) :
    (cavitationRule ctx).vib_rms = ctx.vib_rms ∧
    (cavitationRule ctx).latest_vib = ctx.latest_vib ∧
    (cavitationRule ctx).last_status = ctx.last_status ∧
    (cavitationRule ctx).critical_low_vib_steps = ctx.critical_low_vib_steps := by
  refine ⟨?_, ?_, ?_, ?_⟩ <;>
    (simp only [cavitationRule]; repeat' split) <;> rfl

theorem chokedRule_step_fields (ctx : RuleContext) :
    (chokedRule ctx).vib_rms = ctx.vib_rms ∧
    (chokedRule ctx).latest_vib = ctx.latest_vib ∧
    (chokedRule ctx).last_status = ctx.last_status ∧
    (chokedRule ctx).critical_low_vib_steps = ctx.critical_low_vib_steps := by
  refine ⟨?_, ?_, ?_, ?_⟩ <;>
    (simp only [chokedRule]; repeat' split) <;> rfl

theorem degradationRule_step_fields (ctx : RuleContext) :
    (degradationRule ctx).vib_rms = ctx.vib_rms ∧
    (degradationRule ctx).latest_vib = ctx.latest_vib ∧
    (degradationRule ctx).last_status = ctx.last_status ∧
    (degradationRule ctx).critical_low_vib_steps = ctx.critical_low_vib_steps := by
  refine ⟨?_, ?_, ?_, ?_⟩ <;>
    (simp only [degradationRule]; repeat' split) <;> rfl

theorem degradationHysteresisRule_step_fields (ctx : RuleContext) :
    (degradationHysteresisRule ctx).vib_rms = ctx.vib_rms ∧
    (degradationHysteresisRule ctx).latest_vib = ctx.latest_vib ∧
    (degradationHysteresisRule ctx).last_status = ctx.last_status ∧
    (degradationHysteresisRule ctx).critical_low_vib_steps = ctx.critical_low_vib_steps := by
  refine ⟨?_, ?_, ?_, ?_⟩ <;>
    (simp only [degradationHysteresisRule]; repeat' split) <;> rfl

theorem temperatureRule_step_fields (ctx : RuleContext) :
    (temperatureRule ctx).vib_rms = ctx.vib_rms ∧
    (temperatureRule ctx).latest_vib = ctx.latest_vib ∧
    (temperatureRule ctx).last_status = ctx.last_status ∧
    (temperatureRule ctx).critical_low_vib_steps = ctx.critical_low_vib_steps := by
  refine ⟨?_, ?_, ?_, ?_⟩ <;>
    (simp only [temperatureRule]; repeat' split) <;> rfl

theorem overloadRule_step_fields (ctx : RuleContext) :
    (overloadRule ctx).vib_rms = ctx.vib_rms ∧
    (overloadRule ctx).latest_vib = ctx.latest_vib ∧
    (overloadRule ctx).last_status = ctx.last_status ∧
    (overloadRule ctx).critical_low_vib_steps = ctx.critical_low_vib_steps := by
  refine ⟨?_, ?_, ?_, ?_⟩ <;>
    (simp only [overloadRule]; repeat' split) <;> rfl

theorem highPressureRule_step_fields (ctx : RuleContext) :
    (highPressureRule ctx).vib_rms = ctx.vib_rms ∧
    (highPressureRule ctx).latest_vib = ctx.latest_vib ∧
    (highPressureRule ctx).last_status = ctx.last_status ∧
    (highPressureRule ctx).critical_low_vib_steps = ctx.critical_low_vib_steps := by
  refine ⟨?_, ?_, ?_, ?_⟩ <;>
    (simp only [highPressureRule]; repeat' split) <;> rfl

theorem airIngestionRule_step_fields (ctx : RuleContext) :
    (airIngestionRule ctx).vib_rms = ctx.vib_rms ∧
    (airIngestionRule ctx).latest_vib = ctx.latest_vib ∧
    (airIngestionRule ctx).last_status = ctx.last_status ∧
    (airIngestionRule ctx).critical_low_vib_steps = ctx.critical_low_vib_steps := by
  refine ⟨?_, ?_, ?_, ?_⟩ <;>
    (simp only [airIngestionRule]; repeat' split) <;> rfl

theorem vibrationZoneRule_step_fields (ctx : RuleContext) :
    (vibrationZoneRule ctx).vib_rms = ctx.vib_rms ∧
    (vibrationZoneRule ctx).latest_vib = ctx.latest_vib ∧
    (vibrationZoneRule ctx).last_status = ctx.last_status ∧
    (vibrationZoneRule ctx).critical_low_vib_steps = ctx.critical_low_vib_steps := by
  refine ⟨?_, ?_, ?_, ?_⟩ <;>
    (simp only [vibrationZoneRule]; repeat' split) <;> rfl

/-- Auxiliary: a rule list whose members preserve the step-persistent fields
preserves them as a whole. -/
theorem runRules_step_fields (rs : List (RuleContext → RuleContext))
    (hrs : ∀ f ∈ rs, ∀ ctx : RuleContext,
      (f ctx).vib_rms = ctx.vib_rms ∧ (f ctx).latest_vib = ctx.latest_vib ∧
      (f ctx).last_status = ctx.last_status ∧
      (f ctx).critical_low_vib_steps = ctx.critical_low_vib_steps)
    (ctx : RuleContext) :
    (runRules rs ctx).vib_rms = ctx.vib_rms ∧
    (runRules rs ctx).latest_vib = ctx.latest_vib ∧
    (runRules rs ctx).last_status = ctx.last_status ∧
    (runRules rs ctx).critical_low_vib_steps = ctx.critical_low_vib_steps := by
  induction rs generalizing ctx with
  | nil => exact ⟨rfl, rfl, rfl, rfl⟩
  | cons f tl ih =>
    obtain ⟨a1, a2, a3, a4⟩ := hrs f (List.mem_cons_self f tl) ctx
    obtain ⟨b1, b2, b3, b4⟩ :=
      ih (fun g hg => hrs g (List.mem_cons_of_mem f hg)) (f ctx)
    exact ⟨b1.trans a1, b2.trans a2, b3.trans a3, b4.trans a4⟩

/-- The ten rules ahead of VibrationHysteresisRule do not touch the smoothed
or latest vibration, the previous status, or the low-vibration counter. -/
theorem prefix10_step_fields (ctx : RuleContext) :
    (runRules (RULES.take 10) ctx).vib_rms = ctx.vib_rms ∧
    (runRules (RULES.take 10) ctx).latest_vib = ctx.latest_vib ∧
    (runRules (RULES.take 10) ctx).last_status = ctx.last_status ∧
    (runRules (RULES.take 10) ctx).critical_low_vib_steps =
      ctx.critical_low_vib_steps := by
  refine runRules_step_fields (RULES.take 10) ?_ ctx
  have htake : RULES.take 10 = [mechanicalRule, cavitationRule, chokedRule,
      degradationRule, degradationHysteresisRule, temperatureRule,
      overloadRule, highPressureRule, airIngestionRule,
      vibrationZoneRule] := rfl
  rw [htake]
  intro f hf
  simp only [List.mem_cons, List.not_mem_nil, or_false] at hf
  rcases hf with rfl | rfl | rfl | rfl | rfl | rfl | rfl | rfl | rfl | rfl
  · exact mechanicalRule_step_fields
  · exact cavitationRule_step_fields
  · exact chokedRule_step_fields
  · exact degradationRule_step_fields
  · exact degradationHysteresisRule_step_fields
  · exact temperatureRule_step_fields
  · exact overloadRule_step_fields
  · exact highPressureRule_step_fields
  · exact airIngestionRule_step_fields
  · exact vibrationZoneRule_step_fields

/-- C4 amended: on a step whose previous status is CRITICAL and on which the
pipeline reaches VibrationHysteresisRule with status WARNING (the
CRITICAL-to-WARNING exit path), low vibration (smoothed and latest below
4.5 mm/s) never lets the step end HEALTHY: the status reverts to CRITICAL
and the counter increments while fewer than 5 consecutive low-vibration
steps have accumulated, and the counter resets once 5 are reached (the step
then ends WARNING); vibration at or above 6.0 mm/s reverts the status to
CRITICAL and resets the counter. -/
theorem critical_exit_hysteresis (ctx : RuleContext)
    (hlast : ctx.last_status = some Status.CRITICAL)
    (hmid : (runRules (RULES.take 10) ctx).status = Status.WARNING) :
    ((ctx.vib_rms < 45/10 ∧ ctx.latest_vib < 45/10) →
      ((runPipeline ctx).status ≠ Status.HEALTHY ∧
       (ctx.critical_low_vib_steps + 1 < 5 →
         (runPipeline ctx).status = Status.CRITICAL ∧
         (runPipeline ctx).critical_low_vib_steps =
           ctx.critical_low_vib_steps + 1) ∧
       (5 ≤ ctx.critical_low_vib_steps + 1 →
         (runPipeline ctx).status = Status.WARNING ∧
         (runPipeline ctx).critical_low_vib_steps = 0))) ∧
    ((ctx.vib_rms ≥ 6 ∨ ctx.latest_vib ≥ 6) →
      (runPipeline ctx).status = Status.CRITICAL ∧
      (runPipeline ctx).critical_low_vib_steps = 0) := by
  have hdecomp : runPipeline ctx = finalCleanupRule (interlockRule
      (vibrationHysteresisRule (runRules (RULES.take 10) ctx))) := rfl
  obtain ⟨hv, hlv, hls, hcs⟩ := prefix10_step_fields ctx
  have hml : (runRules (RULES.take 10) ctx).last_status =
      some Status.CRITICAL := hls.trans hlast
  have hhyst := vibrationHysteresisRule_critical_exit _ hml hmid
  constructor
  · rintro ⟨h1, h2⟩
    have hnot6 : ¬((runRules (RULES.take 10) ctx).vib_rms ≥
        VIBRATION_HYSTERESIS_EXIT_CRITICAL_MMPS ∨
        (runRules (RULES.take 10) ctx).latest_vib ≥
        VIBRATION_HYSTERESIS_EXIT_CRITICAL_MMPS) := by
      rw [hv, hlv, VIBRATION_HYSTERESIS_EXIT_CRITICAL_MMPS]
      push_neg
      constructor <;> linarith
    rw [if_neg hnot6] at hhyst
    refine ⟨?_, ?_, ?_⟩
    · by_cases hst : (runRules (RULES.take 10) ctx).critical_low_vib_steps +
          1 < CRITICAL_EXIT_MIN_LOW_VIB_STEPS
      · have hh := hhyst
        rw [if_pos hst] at hh
        rw [hdecomp, hh]
        have hI := interlockRule_no_fire_fields _
          (show ({ runRules (RULES.take 10) ctx with
              status := Status.CRITICAL
              critical_low_vib_steps :=
                (runRules (RULES.take 10) ctx).critical_low_vib_steps +
                  1 } : RuleContext).vib_rms < VIBRATION_INTERLOCK_MMPS by
            show (runRules (RULES.take 10) ctx).vib_rms <
              VIBRATION_INTERLOCK_MMPS
            rw [hv, VIBRATION_INTERLOCK_MMPS]
            linarith)
        rw [finalCleanupRule_status_critical _ (hI.1.trans rfl)]
        simp
      · have hh := hhyst
        rw [if_neg hst] at hh
        rw [hdecomp, hh]
        have hI := interlockRule_no_fire_fields
          ({ runRules (RULES.take 10) ctx with
            critical_low_vib_steps := 0 } : RuleContext)
          (by
            show (runRules (RULES.take 10) ctx).vib_rms <
              VIBRATION_INTERLOCK_MMPS
            rw [hv, VIBRATION_INTERLOCK_MMPS]
            linarith)
        rw [finalCleanupRule_status_warning _ (hI.1.trans hmid)]
        simp
    · intro hlt
      have hst : (runRules (RULES.take 10) ctx).critical_low_vib_steps + 1 <
          CRITICAL_EXIT_MIN_LOW_VIB_STEPS := by
        rw [hcs, CRITICAL_EXIT_MIN_LOW_VIB_STEPS]
        exact hlt
      have hh := hhyst
      rw [if_pos hst] at hh
      rw [hdecomp, hh]
      have hI := interlockRule_no_fire_fields
        ({ runRules (RULES.take 10) ctx with
          status := Status.CRITICAL
          critical_low_vib_steps :=
            (runRules (RULES.take 10) ctx).critical_low_vib_steps + 1 } :
          RuleContext)
        (by
          show (runRules (RULES.take 10) ctx).vib_rms <
            VIBRATION_INTERLOCK_MMPS
          rw [hv, VIBRATION_INTERLOCK_MMPS]
          linarith)
      refine ⟨finalCleanupRule_status_critical _ (hI.1.trans rfl), ?_⟩
      rw [finalCleanupRule_steps, hI.2.2.2.2]
      show (runRules (RULES.take 10) ctx).critical_low_vib_steps + 1 = _
      rw [hcs]
    · intro hge
      have hst : ¬((runRules (RULES.take 10) ctx).critical_low_vib_steps + 1 <
          CRITICAL_EXIT_MIN_LOW_VIB_STEPS) := by
        rw [hcs, CRITICAL_EXIT_MIN_LOW_VIB_STEPS]
        omega
      have hh := hhyst
      rw [if_neg hst] at hh
      rw [hdecomp, hh]
      have hI := interlockRule_no_fire_fields
        ({ runRules (RULES.take 10) ctx with
          critical_low_vib_steps := 0 } : RuleContext)
        (by
          show (runRules (RULES.take 10) ctx).vib_rms <
            VIBRATION_INTERLOCK_MMPS
          rw [hv, VIBRATION_INTERLOCK_MMPS]
          linarith)
      refine ⟨finalCleanupRule_status_warning _ (hI.1.trans hmid), ?_⟩
      rw [finalCleanupRule_steps, hI.2.2.2.2]
  · intro h6
    have hcond : (runRules (RULES.take 10) ctx).vib_rms ≥
        VIBRATION_HYSTERESIS_EXIT_CRITICAL_MMPS ∨
        (runRules (RULES.take 10) ctx).latest_vib ≥
        VIBRATION_HYSTERESIS_EXIT_CRITICAL_MMPS := by
      rw [hv, hlv, VIBRATION_HYSTERESIS_EXIT_CRITICAL_MMPS]
      exact h6
    rw [if_pos hcond] at hhyst
    rw [hdecomp, hhyst]
    by_cases hint : ({ runRules (RULES.take 10) ctx with
        status := Status.CRITICAL
        critical_low_vib_steps := 0 } : RuleContext).vib_rms ≥
        VIBRATION_INTERLOCK_MMPS
    · rw [interlockRule_fire _ hint]
      refine ⟨finalCleanupRule_status_critical _ rfl, ?_⟩
      rw [finalCleanupRule_steps]
    · have hI := interlockRule_no_fire_fields _ (not_le.mp hint)
      refine ⟨finalCleanupRule_status_critical _ (hI.1.trans rfl), ?_⟩
      rw [finalCleanupRule_steps, hI.2.2.2.2]

/-- Witness context for the amended C4: previous status CRITICAL, base
status WARNING (model risk 0.7), vibration down to 3.0 mm/s. -/
def criticalExitCtx : RuleContext :=
  { vib_rms := 3, vib_crest := 3, current := 45, pressure := 6, temp := 42,
    latest_vib := 3, latest_crest := 3, latest_current := 45,
    latest_pressure := 6, latest_temp := 42, smoothed_prob := 7/10,
    prev_reason := none, last_status := some Status.CRITICAL,
    debris_flag := false, status := .WARNING, reason := none,
    display_prob := 55/100, critical_low_vib_steps := 0, trip_cause := none,
    alarm_causes := [] }

/-- On the witness context none of the first ten rules applies. -/
theorem criticalExitCtx_first_ten :
    runRules (RULES.take 10) criticalExitCtx = criticalExitCtx := by
  show vibrationZoneRule (airIngestionRule (highPressureRule (overloadRule
    (temperatureRule (degradationHysteresisRule (degradationRule (chokedRule
    (cavitationRule (mechanicalRule criticalExitCtx))))))))) = criticalExitCtx
  have s1 : mechanicalRule criticalExitCtx = criticalExitCtx := by
    rw [mechanicalRule, if_neg, if_neg]
    all_goals norm_num [criticalExitCtx, DEBRIS_IMPACT_CREST_MIN,
      VIBRATION_CRITICAL_MMPS]
  rw [s1,
    cavitationRule_not_fired _ (by
      norm_num [cavitationSmoothedCond, cavitationLatestCond,
        cavitationHysteresisCond, criticalExitCtx,
        CAVITATION_CURRENT_MIN_AMP, CAVITATION_PRESSURE_MAX_BAR,
        CAVITATION_VIBRATION_MIN_MMPS,
        CAVITATION_HYSTERESIS_EXIT_PRESSURE_BAR]),
    chokedRule_not_fired _ (by
      norm_num [criticalExitCtx, CHOKED_CURRENT_MAX_AMP,
        CHOKED_PRESSURE_MIN_BAR, CHOKED_TEMP_MIN_C]),
    degradationRule_not_fired _ (by
      norm_num [criticalExitCtx, DEGRADATION_CURRENT_MAX_AMP,
        DEGRADATION_PRESSURE_MAX_BAR]),
    degradationHysteresisRule_skip _ (Or.inl (by simp [criticalExitCtx])),
    temperatureRule_not_fired _
      (by norm_num [criticalExitCtx, TEMP_CRITICAL_C])
      (by norm_num [criticalExitCtx, TEMP_WARNING_C]),
    overloadRule_not_fired _
      (by norm_num [criticalExitCtx, OVERLOAD_CURRENT_MIN_AMP]),
    highPressureRule_not_fired _
      (by norm_num [criticalExitCtx, PRESSURE_HIGH_WARNING_BAR,
        CHOKED_CURRENT_MAX_AMP]),
    airIngestionRule_not_fired _
      (by norm_num [criticalExitCtx, AIR_INGESTION_VIB_CREST_MIN,
        AIR_INGESTION_VIB_RMS_MIN_MMPS]),
    vibrationZoneRule_skip _
      (by norm_num [criticalExitCtx, VIBRATION_CRITICAL_MMPS])
      (by norm_num [criticalExitCtx, VIBRATION_WARNING_ENTRY_MMPS])]

/-- Witness for the amended C4: the low-vibration step after CRITICAL
reverts to CRITICAL with one low-vibration step counted. -/
theorem critical_exit_hysteresis_witness :
    (runPipeline criticalExitCtx).status = Status.CRITICAL ∧
    (runPipeline criticalExitCtx).critical_low_vib_steps = 1 := by
  have h := critical_exit_hysteresis criticalExitCtx rfl
    (by rw [criticalExitCtx_first_ten]; rfl)
  have hlow := (h.1 (by norm_num [criticalExitCtx])).2.1
    (by norm_num [criticalExitCtx])
  simpa [criticalExitCtx] using hlow

end PumpSpec
